import Mathlib

/-!
Verification development for the llm-harness model-stats subsystem.

The Python modules under llm_harness/stats (data_sources/artificial_analysis.py,
data_sources/models_dev.py, data_sources/matcher.py, model_stats.py) and the
raw-cache client llm_harness/clients/aa_stats.py are shallowly embedded below.

Modelling conventions, used throughout:
- JSON numeric fields are embedded as `Option Rat`, with `none` standing for an
  absent key, a JSON null, a non-numeric value, or a non-finite float (NaN or
  infinity).  Under this reading the source helper `_as_finite_float` is the
  identity on present values, since every represented number is finite.
- Python floats are modelled as exact rationals; `math.log` appears only through
  the helper `_signed_log`, whose positive-argument logarithm is abstracted as a
  parameter `lg : Rat → Rat` threaded through the scorer.  None of the verified
  properties depend on the values of the logarithm.
- Fallible effects (HTTP fetch, JSON parse, cache file reads) are passed in as
  `Except`/`Option`-valued inputs; `datetime.now` is passed in as an integer
  epoch-second parameter, and the ISO cutoff date string (now minus 365 days,
  formatted by the standard library) is passed in as a string parameter.
- Functions that issue HTTP requests additionally return a `Nat` counting the
  HTTP request attempts they performed.
- String functions are modelled on the character list of the string; Python
  string comparison (lexicographic by code point) is `charsLtB` below, and
  `str.lower` is modelled by `Char.toLower` (the inputs of interest are ASCII).
-/

namespace LLMHarness

/-! ### Generic Python-semantics helpers -/

/-- Errors a Python callee may raise: configuration (missing API key), transport
(network, timeout, non-2xx status), parse (malformed JSON), validation
(unexpected shape).  The failure-safe wrappers treat all of them alike. -/
inductive PyErr
  | config
  | transport
  | parse
  | validation
  deriving DecidableEq, Repr, Inhabited

/-- Truthiness of an optional string, as Python `bool(x)` on `str | None`:
`None` and the empty string are falsy. -/
def truthyStr : Option String → Bool
  | none => false
  | some s => s ≠ ""

/-- Python `a or b or None` on optional strings: the first truthy operand,
else `None`. -/
def pyOrStr (a b : Option String) : Option String :=
  if truthyStr a then a else if truthyStr b then b else none

/-- Python `int(q)` on a float: truncation toward zero. -/
def pyTrunc (q : Rat) : Int := q.num.tdiv (q.den : Int)

/-- Lexicographic strict comparison of character lists by code point, the
semantics of Python string `<`. -/
def charsLtB : List Char → List Char → Bool
  | [], [] => false
  | [], _ :: _ => true
  | _ :: _, [] => false
  | a :: as, b :: bs => if a < b then true else if b < a then false else charsLtB as bs

/-- Python string `left <= right`. -/
def strLeB (left right : String) : Bool := !(charsLtB right.data left.data)

/-- Python `value.split(sep)` for a one-character separator (keeps empty
pieces, never returns an empty list). -/
def splitOnCharAux (sep : Char) : List Char → List Char → List (List Char)
  | [], acc => [acc.reverse]
  | c :: rest, acc =>
    if c = sep then acc.reverse :: splitOnCharAux sep rest []
    else splitOnCharAux sep rest (c :: acc)

/-- Python `value.split(sep)` on strings, one-character separator. -/
def splitOnChar (sep : Char) (s : String) : List String :=
  (splitOnCharAux sep s.data []).map String.mk

/-! ### artificial_analysis.py: data model -/

/-- Pricing sub-object of a raw Artificial Analysis model (the three fields the
code reads; `model.get("pricing") or` empty-dict is the all-`none` record). -/
structure AAPricing where
  price_1m_blended_3_to_1 : Option Rat
  price_1m_input_tokens : Option Rat
  price_1m_output_tokens : Option Rat
  deriving DecidableEq, Repr, Inhabited

/-- Evaluations sub-object of a raw Artificial Analysis model: the two index
fields plus the fixed benchmark-key set BENCHMARK_KEYS. -/
structure AAEvaluations where
  artificial_analysis_intelligence_index : Option Rat
  artificial_analysis_coding_index : Option Rat
  hle : Option Rat
  terminalbench_hard : Option Rat
  lcr : Option Rat
  ifbench : Option Rat
  scicode : Option Rat
  deriving DecidableEq, Repr, Inhabited

/-- Creator sub-object, read by the selector for the logo slug. -/
structure AACreator where
  slug : Option String
  deriving DecidableEq, Repr, Inhabited

/-- Raw Artificial Analysis model record, after `_remove_ids` (which strips
every nested `id` key; the typed record accordingly has no id field). -/
structure AAModel where
  slug : Option String
  name : Option String
  release_date : Option String
  pricing : AAPricing
  evaluations : AAEvaluations
  median_time_to_first_answer_token : Option Rat
  median_output_tokens_per_second : Option Rat
  model_creator : Option AACreator
  deriving DecidableEq, Repr, Inhabited

/-- Composite scores attached under the `scores` key by `_compute_scores`. -/
structure AAScores where
  overall_score : Option Rat
  intelligence_score : Option Rat
  benchmark_bias_score : Option Rat
  price_score : Option Rat
  speed_score : Option Rat
  deriving DecidableEq, Repr, Inhabited

/-- Percentiles attached under the `percentiles` key by
`_rank_and_enrich_models`. -/
structure AAPercentiles where
  overall_percentile : Option Rat
  intelligence_percentile : Option Rat
  speed_percentile : Option Rat
  price_percentile : Option Rat
  deriving DecidableEq, Repr, Inhabited

/-- A model dict after `_compute_scores` spreads the raw model and adds
`scores`. -/
structure AAScoredModel where
  model : AAModel
  scores : AAScores
  deriving DecidableEq, Repr, Inhabited

/-- A model dict after `_rank_and_enrich_models` adds `percentiles`. -/
structure AAEnrichedModel where
  model : AAModel
  scores : AAScores
  percentiles : AAPercentiles
  deriving DecidableEq, Repr, Inhabited

/-- Output payload of `get_artificial_analysis_stats`. -/
structure AAPayload where
  fetched_at_epoch_seconds : Option Int
  status_code : Option Int
  models : List AAEnrichedModel
  deriving DecidableEq, Repr, Inhabited

/-! ### artificial_analysis.py: scoring helpers -/

/-- Embeds `_as_finite_float`: the identity on the `Option Rat` encoding (see
the header note on numeric fields). -/
def as_finite_float (value : Option Rat) : Option Rat := value

/-- Embeds `_is_positive_finite`. -/
def is_positive_finite (value : Option Rat) : Bool :=
  match as_finite_float value with
  | none => false
  | some q => decide (0 < q)

/-- Embeds `_signed_log`; `lg` abstracts `math.log` on positive arguments. -/
def signed_log (lg : Rat → Rat) (invert : Bool) (value : Option Rat) : Option Rat :=
  match as_finite_float value with
  | none => none
  | some q => if q ≤ 0 then none else some (if invert then -(lg q) else lg q)

/-- Embeds `_mean` (the `isfinite` filter is vacuous on the encoding). -/
def meanQ (values : List (Option Rat)) : Option Rat :=
  let finite_values := values.filterMap id
  if finite_values.isEmpty then none
  else some (finite_values.sum / (finite_values.length : Rat))

/-- Embeds `_weighted_mean`. -/
def weighted_mean (pairs : List (Option Rat × Rat)) : Option Rat :=
  let valid_pairs := pairs.filterMap fun p =>
    match p.1 with
    | some v => if 0 < p.2 then some (v, p.2) else none
    | none => none
  if valid_pairs.isEmpty then none
  else
    let weighted_sum := (valid_pairs.map fun p => p.1 * p.2).sum
    let weight_sum := (valid_pairs.map fun p => p.2).sum
    if weight_sum = 0 then none else some (weighted_sum / weight_sum)

/-- Embeds `_percentile_rank`. -/
def percentile_rank (values : List (Option Rat)) (value : Option Rat) : Option Rat :=
  match as_finite_float value with
  | none => none
  | some x =>
    let finite_values := values.filterMap id
    if finite_values.isEmpty then none
    else some (((finite_values.countP fun v => decide (v ≤ x)) : Rat)
      / (finite_values.length : Rat) * 100)

/-- Embeds the per-model body of `_compute_scores` (SCORE_WEIGHTS inlined). -/
def compute_model_scores (lg : Rat → Rat) (m : AAModel) : AAScores :=
  let evaluations := m.evaluations
  let intelligence := as_finite_float evaluations.artificial_analysis_intelligence_index
  let coding := as_finite_float evaluations.artificial_analysis_coding_index
  let blended_price := m.pricing.price_1m_blended_3_to_1
  let ttfa := m.median_time_to_first_answer_token
  let tps := m.median_output_tokens_per_second
  let intelligence_score :=
    match intelligence, coding with
    | some i, some c => some (2 * i + c)
    | _, _ => none
  let benchmark_values := [evaluations.hle, evaluations.terminalbench_hard,
    evaluations.lcr, evaluations.ifbench, evaluations.scicode]
  let benchmark_bias_score := meanQ (benchmark_values.map fun v =>
    if is_positive_finite v then as_finite_float v else none)
  let price_score := signed_log lg true blended_price
  let speed_score := meanQ [signed_log lg true ttfa, signed_log lg false tps]
  let overall_score := weighted_mean
    [(intelligence_score, 3/10), (benchmark_bias_score, 3/10),
     (price_score, 1/5), (speed_score, 1/5)]
  { overall_score, intelligence_score, benchmark_bias_score, price_score, speed_score }

/-- Embeds `_compute_scores`. -/
def compute_scores (lg : Rat → Rat) (filtered_models : List AAModel) : List AAScoredModel :=
  filtered_models.map fun m => { model := m, scores := compute_model_scores lg m }

/-- Recency-and-pricing filter of `_rank_and_enrich_models` (the conjunction in
its list comprehension). -/
def aaFilterKeep (cutoff_date : String) (m : AAModel) : Bool :=
  strLeB cutoff_date (m.release_date.getD "")
    && is_positive_finite m.pricing.price_1m_blended_3_to_1
    && is_positive_finite m.pricing.price_1m_input_tokens
    && is_positive_finite m.pricing.price_1m_output_tokens
    && is_positive_finite m.median_time_to_first_answer_token
    && is_positive_finite m.median_output_tokens_per_second

/-- Sort key of the ranking step: overall score (the `float("-inf")` default is
unreachable because the sorted list is pre-filtered to finite overall scores). -/
def overallKey (m : AAScoredModel) : Rat := m.scores.overall_score.getD 0

/-- Comparison used to embed Python `sorted(key=overall, reverse=True)`: place
`a` before `b` when the key of `b` is at most the key of `a`.  Python sort is
stable, as is `List.insertionSort` with this relation. -/
def rankRel (a b : AAScoredModel) : Prop := overallKey b ≤ overallKey a

instance : DecidableRel rankRel := fun a b =>
  inferInstanceAs (Decidable (overallKey b ≤ overallKey a))

/-- The `ranked` list of `_rank_and_enrich_models`: recency-and-pricing
filter, scoring, restriction to finite overall scores, stable sort by overall
score descending. -/
def aaRanked (lg : Rat → Rat) (models : List AAModel) (cutoff_date : String) :
    List AAScoredModel :=
  List.insertionSort rankRel
    ((compute_scores lg (models.filter (aaFilterKeep cutoff_date))).filter
      fun m => (as_finite_float m.scores.overall_score).isSome)

/-- The enrichment step of `_rank_and_enrich_models` for one ranked model:
spread the model and attach the four percentiles, computed against the column
values of the ranked population. -/
def aaEnrich (ranked : List AAScoredModel) (m : AAScoredModel) : AAEnrichedModel :=
  { model := m.model
    scores := m.scores
    percentiles :=
      { overall_percentile :=
          percentile_rank (ranked.map fun r => r.scores.overall_score) m.scores.overall_score
        intelligence_percentile :=
          percentile_rank (ranked.map fun r => r.scores.intelligence_score)
            m.scores.intelligence_score
        speed_percentile :=
          percentile_rank (ranked.map fun r => r.scores.speed_score) m.scores.speed_score
        price_percentile :=
          percentile_rank (ranked.map fun r => r.scores.price_score) m.scores.price_score } }

/-- Embeds `_rank_and_enrich_models`. -/
def rank_and_enrich_models (lg : Rat → Rat) (models : List AAModel)
    (cutoff_date : String) : List AAEnrichedModel :=
  let ranked := aaRanked lg models cutoff_date
  ranked.map (aaEnrich ranked)

/-! ### artificial_analysis.py: entry point -/

/-- Successful HTTP response of the Artificial Analysis models endpoint:
status code and the parsed `data` list (after `_remove_ids`). -/
structure AAFetchOk where
  status_code : Int
  data : List AAModel
  deriving DecidableEq, Repr, Inhabited

/-- Environment of one `get_artificial_analysis_stats` call: the resolved API
key (options value or environment variable), the outcome the single HTTP
request would have, the current epoch second, the ISO cutoff date (now minus
365 days), and the abstract logarithm. -/
structure AAEnv where
  api_key : Option String
  http : Except PyErr AAFetchOk
  now : Int
  cutoff_date : String
  lg : Rat → Rat

/-- Embeds `_fetch_models`: raises a configuration error without issuing a
request when the key is falsy, otherwise issues exactly one request (the
second component counts request attempts) whose outcome is `http`. -/
def fetch_models (api_key : Option String) (http : Except PyErr AAFetchOk)
    (now : Int) : Except PyErr (Int × Int × List AAModel) × Nat :=
  if truthyStr api_key then
    match http with
    | Except.error e => (Except.error e, 1)
    | Except.ok ok => (Except.ok (now, ok.status_code, ok.data), 1)
  else (Except.error PyErr.config, 0)

/-- Embeds `get_artificial_analysis_stats`, also reporting the number of HTTP
request attempts made. -/
def get_artificial_analysis_stats_run (env : AAEnv) : AAPayload × Nat :=
  let fetched := fetch_models env.api_key env.http env.now
  match fetched.1 with
  | Except.error _ =>
    ({ fetched_at_epoch_seconds := none, status_code := none, models := [] }, fetched.2)
  | Except.ok (fetched_at, status_code, models) =>
    ({ fetched_at_epoch_seconds := some fetched_at
       status_code := some status_code
       models := rank_and_enrich_models env.lg models env.cutoff_date }, fetched.2)

/-- Payload of `get_artificial_analysis_stats` (first component of the run). -/
def get_artificial_analysis_stats (env : AAEnv) : AAPayload :=
  (get_artificial_analysis_stats_run env).1

/-! ### models_dev.py: data model -/

/-- Cost sub-object of a models.dev model; `output` is the only field the code
reads (for the ranking sort key). -/
structure MDCost where
  output : Option Rat
  deriving DecidableEq, Repr, Inhabited

/-- One models.dev model object.  `modalities` and `limit` are opaque JSON
passed through untouched by the code; they are modelled as opaque strings. -/
structure MDModel where
  id : Option String
  name : Option String
  release_date : Option String
  attachment : Option Bool
  reasoning : Option Bool
  open_weights : Option Bool
  modalities : Option String
  cost : Option MDCost
  limit : Option String
  deriving DecidableEq, Repr, Inhabited

/-- One flattened row produced by `_flatten_models`. -/
structure MDRow where
  provider_id : String
  provider_name : String
  model_id : String
  model : MDModel
  deriving DecidableEq, Repr, Inhabited

/-- One entry of a provider `models` map in the raw models.dev JSON. -/
structure MDRawModelEntry where
  key : String
  model : MDModel
  deriving DecidableEq, Repr, Inhabited

/-- One provider of the raw models.dev JSON (non-dict providers and non-dict
model maps, which the code skips, are simply not represented). -/
structure MDRawProvider where
  key : String
  name : Option String
  models : List MDRawModelEntry
  deriving DecidableEq, Repr, Inhabited

/-- Output payload of `get_models_dev_stats`. -/
structure MDPayload where
  fetched_at_epoch_seconds : Option Int
  status_code : Option Int
  models : List MDRow
  deriving DecidableEq, Repr, Inhabited

/-! ### models_dev.py: functions -/

/-- Embeds `_is_recent_date`. -/
def is_recent_date (iso_date : Option String) (cutoff_iso_date : String) : Bool :=
  match iso_date with
  | none => false
  | some s => if s = "" then false else strLeB cutoff_iso_date s

/-- Embeds `_flatten_models`: flattens the provider to model-id to model tree
into rows; `provider_name` is `provider.get("name") or provider_id` and
`model_id` is `model.get("id") or model_id`. -/
def flatten_models (payload : List MDRawProvider) : List MDRow :=
  payload.flatMap fun provider =>
    provider.models.map fun entry =>
      { provider_id := provider.key
        provider_name := (pyOrStr provider.name (some provider.key)).getD provider.key
        model_id := (pyOrStr entry.model.id (some entry.key)).getD entry.key
        model := entry.model }

/-- Release-date key of the first ranking sort (`or ""`). -/
def mdDateKey (row : MDRow) : String := row.model.release_date.getD ""

/-- Comparison embedding `sort(key=release_date, reverse=True)`. -/
def mdDateRel (a b : MDRow) : Prop := strLeB (mdDateKey b) (mdDateKey a) = true

instance : DecidableRel mdDateRel := fun a b =>
  inferInstanceAs (Decidable (strLeB (mdDateKey b) (mdDateKey a) = true))

/-- Output-cost key of the second ranking sort: the source computes
`_as_finite(cost_output) or float("inf")`, so a missing, non-numeric, or zero
cost (0.0 is falsy in Python) maps to plus infinity, embedded as the top
element of `WithTop Rat`. -/
def mdCostKey (row : MDRow) : WithTop Rat :=
  match as_finite_float ((row.model.cost.map MDCost.output).getD none) with
  | none => ⊤
  | some q => if q = 0 then ⊤ else (q : WithTop Rat)

/-- Comparison embedding `sort(key=cost_output_or_infinity)`. -/
def mdCostRel (a b : MDRow) : Prop := mdCostKey a ≤ mdCostKey b

instance : DecidableRel mdCostRel := fun a b =>
  inferInstanceAs (Decidable (mdCostKey a ≤ mdCostKey b))

/-- Embeds `_rank_recent_models`: recency filter, then two stable sorts
(release date descending, then output cost ascending with missing cost last). -/
def rank_recent_models (models : List MDRow) (cutoff_iso_date : String) : List MDRow :=
  let filtered := models.filter fun row => is_recent_date row.model.release_date cutoff_iso_date
  List.insertionSort mdCostRel (List.insertionSort mdDateRel filtered)

/-- Environment of one `get_models_dev_stats` call: outcome of the single HTTP
request (status code and parsed body on success), current epoch second, and the
ISO cutoff date. -/
structure MDEnv where
  http : Except PyErr (Int × List MDRawProvider)
  now : Int
  cutoff_date : String

/-- Embeds `get_models_dev_stats`, also reporting the number of HTTP request
attempts (the unconditional `client.get` counts as one attempt even when it
fails). -/
def get_models_dev_stats_run (env : MDEnv) : MDPayload × Nat :=
  match env.http with
  | Except.error _ =>
    ({ fetched_at_epoch_seconds := none, status_code := none, models := [] }, 1)
  | Except.ok (status_code, body) =>
    ({ fetched_at_epoch_seconds := some env.now
       status_code := some status_code
       models := rank_recent_models (flatten_models body) env.cutoff_date }, 1)

/-- Payload of `get_models_dev_stats`. -/
def get_models_dev_stats (env : MDEnv) : MDPayload :=
  (get_models_dev_stats_run env).1

/-! ### matcher.py: normalization and tokenization -/

/-- Characters of the regex class `[._:\s]` (ASCII whitespace). -/
def isSepChar (c : Char) : Bool :=
  c = '.' || c = '_' || c = ':' || c = ' ' || c = '\t' || c = '\n' || c = '\r'
    || c = '\x0b' || c = '\x0c'

/-- Replace every maximal run of characters satisfying `p` by the single
character `rep` (the semantics of `re.sub(class+, rep, s)`); `inRun` tracks
whether the previous character was in a run. -/
def collapseRunsAux (p : Char → Bool) (rep : Char) : Bool → List Char → List Char
  | _, [] => []
  | inRun, c :: rest =>
    if p c then
      if inRun then collapseRunsAux p rep true rest
      else rep :: collapseRunsAux p rep true rest
    else c :: collapseRunsAux p rep false rest

/-- Characters kept by the regex deletion step: lowercase letters, digits,
slash, dash. -/
def isAllowedChar (c : Char) : Bool :=
  ('a' ≤ c && c ≤ 'z') || ('0' ≤ c && c ≤ '9') || c = '/' || c = '-'

/-- Drop leading characters satisfying `p`. -/
def trimLeft (p : Char → Bool) : List Char → List Char
  | [] => []
  | c :: rest => if p c then trimLeft p rest else c :: rest

/-- Python `s.strip(chars)`: drop characters satisfying `p` from both ends. -/
def trimBoth (p : Char → Bool) (cs : List Char) : List Char :=
  ((trimLeft p (trimLeft p cs.reverse).reverse).reverse).reverse

/-- Embeds `_normalize`: lowercase, collapse separator runs to a dash, delete
characters other than lowercase letters, digits, slash and dash, collapse dash
runs, strip dash and slash at the ends. -/
def normalize (value : String) : String :=
  let lowered := value.data.map Char.toLower
  let dashed := collapseRunsAux isSepChar '-' false lowered
  let kept := dashed.filter isAllowedChar
  let collapsed := collapseRunsAux (fun c => c = '-') '-' false kept
  String.mk (trimBoth (fun c => c = '-' || c = '/') collapsed)

/-- Embeds `_split_base_model_id`: the segment after the last slash. -/
def split_base_model_id (model_id : String) : String :=
  (splitOnChar '/' model_id).getLastD model_id

/-- ASCII digit test, the regex class `\d` on these inputs. -/
def isDigitChar (c : Char) : Bool := '0' ≤ c && c ≤ '9'

/-- Numeric value of a digit string. -/
def digitsToNat (cs : List Char) : Nat :=
  cs.foldl (fun acc c => acc * 10 + (c.toNat - ('0').toNat)) 0

/-- Full match of `\d+`. -/
def parseDigits (cs : List Char) : Option Nat :=
  if cs ≠ [] && cs.all isDigitChar then some (digitsToNat cs) else none

/-- Full match of `(\d+)b`, returning the captured number. -/
def parseBScaleChars (cs : List Char) : Option Nat :=
  match cs.getLast? with
  | some 'b' => parseDigits cs.dropLast
  | _ => none

/-- Full match of `a(\d+)b`, returning the captured number. -/
def parseActiveBChars : List Char → Option Nat
  | 'a' :: rest => parseBScaleChars rest
  | _ => none

/-- Embeds `_is_b_scale_token`: full match of `\d+b` or `a\d+b`. -/
def is_b_scale_token (token : String) : Bool :=
  (parseBScaleChars token.data).isSome || (parseActiveBChars token.data).isSome

/-- Split a character list into maximal runs of digits and non-digits, the
semantics of the lookaround split in `_split_mixed_alphanumeric_token`. -/
def groupRunsAux : Option (Bool × List Char) → List Char → List (List Char)
  | none, [] => []
  | some state, [] => [state.2.reverse]
  | none, c :: rest => groupRunsAux (some (isDigitChar c, [c])) rest
  | some state, c :: rest =>
    if isDigitChar c = state.1 then groupRunsAux (some (state.1, c :: state.2)) rest
    else state.2.reverse :: groupRunsAux (some (isDigitChar c, [c])) rest

/-- Embeds `_split_mixed_alphanumeric_token`. -/
def split_mixed_alphanumeric_token (token : String) : List String :=
  if is_b_scale_token token then [token]
  else ((groupRunsAux none token.data).map String.mk).filter fun part => part ≠ ""

/-- The fixed marketing-tag stop set MODEL_NAME_TAG_TOKENS. -/
def MODEL_NAME_TAG_TOKENS : List String :=
  ["free", "extended", "exacto", "instruct", "vl", "thinking", "reasoning", "online", "nitro"]

/-- Embeds `_split_tokens`. -/
def split_tokens (value : String) : List String :=
  (splitOnChar '-' (normalize value)).flatMap fun token =>
    (split_mixed_alphanumeric_token token).filter fun part =>
      part ≠ "" && !(MODEL_NAME_TAG_TOKENS.contains part)

/-- Embeds `_first_parsed_number`. -/
def first_parsed_number (tokens : List String) (parser : Option String → Option Nat) :
    Option Nat :=
  tokens.findSome? fun token => parser (some token)

/-- Embeds `_is_numeric_token`. -/
def is_numeric_token (token : Option String) : Bool :=
  match token with
  | none => false
  | some s => (parseDigits s.data).isSome

/-- Embeds `_parse_numeric_or_b_scale_token`. -/
def parse_numeric_or_b_scale_token (token : Option String) : Option Nat :=
  match token with
  | none => none
  | some s =>
    if s = "" then none
    else
      match parseDigits s.data with
      | some n => some n
      | none =>
        match parseBScaleChars s.data with
        | some n => some n
        | none => parseActiveBChars s.data

/-- Embeds `_parse_b_scale_token`. -/
def parse_b_scale_token (token : Option String) : Option Nat :=
  match token with
  | none => none
  | some s => if s = "" then none else parseBScaleChars s.data

/-- Embeds `_parse_active_b_token`. -/
def parse_active_b_token (token : Option String) : Option Nat :=
  match token with
  | none => none
  | some s => if s = "" then none else parseActiveBChars s.data

/-- Embeds `_common_prefix_length` on character lists. -/
def commonPrefixChars : List Char → List Char → Nat
  | a :: as, b :: bs => if a = b then 1 + commonPrefixChars as bs else 0
  | _, _ => 0

/-- Embeds `_common_prefix_length`. -/
def common_prefix_length (left right : String) : Nat :=
  commonPrefixChars left.data right.data

/-! ### matcher.py: candidate scoring -/

/-- TOKEN_PREFIX_WEIGHTS. -/
def TOKEN_PREFIX_WEIGHTS : List Nat := [5, 4, 3, 2, 1]

/-- Loop of `_weighted_token_prefix_score`, carrying the position index
(positions past the weight list contribute 0). -/
def wtpsAux (idx : Nat) : List String → List String → Nat
  | a :: as, b :: bs =>
    if a = b then TOKEN_PREFIX_WEIGHTS.getD idx 0 + wtpsAux (idx + 1) as bs else 0
  | _, _ => 0

/-- Embeds `_weighted_token_prefix_score`. -/
def weighted_token_prefix_score (left_tokens right_tokens : List String) : Nat :=
  wtpsAux 0 left_tokens right_tokens

/-- Loop of `_numeric_match_reward`: the first aligned position where both
tokens parse numerically decides the reward. -/
def nmrAux : List String → List String → Rat
  | a :: as, b :: bs =>
    match parse_numeric_or_b_scale_token (some a), parse_numeric_or_b_scale_token (some b) with
    | some x, some y => if x = y then 2 else 0
    | _, _ => nmrAux as bs
  | _, _ => 0

/-- Embeds `_numeric_match_reward` (NUMERIC_EXACT_MATCH_REWARD = 2). -/
def numeric_match_reward (aa_slug model_id : String) : Rat :=
  nmrAux (split_tokens aa_slug) (split_tokens (split_base_model_id model_id))

/-- Loop of `_numeric_closeness_reward` over the aligned numeric sequences:
both exhausted means all equal (reward 1/5); one side missing a value returns
0; the first differing pair returns the inverse-distance bonus. -/
def ncrAux : List Nat → List Nat → Rat
  | [], [] => 1/5
  | a :: as, b :: bs =>
    if a = b then ncrAux as bs
    else (1/10) / (1 + |(a : Rat) - (b : Rat)|)
  | _, _ => 0

/-- Embeds `_numeric_closeness_reward` (scale 1/10, all-equal reward 1/5). -/
def numeric_closeness_reward (aa_slug model_id : String) : Rat :=
  let aa_numbers := (split_tokens aa_slug).filterMap fun t =>
    parse_numeric_or_b_scale_token (some t)
  let model_numbers := (split_tokens (split_base_model_id model_id)).filterMap fun t =>
    parse_numeric_or_b_scale_token (some t)
  ncrAux aa_numbers model_numbers

/-- Candidate parameter-scale resolution shared by `_b_scale_reward_or_penalty`
and `_has_hard_b_scale_mismatch`: the scale of the id tail when present, else
the scale of the display name. -/
def candidateBScale (model_id model_name : String) : Option Nat :=
  match first_parsed_number (split_tokens (split_base_model_id model_id)) parse_b_scale_token with
  | some b => some b
  | none => first_parsed_number (split_tokens model_name) parse_b_scale_token

/-- Embeds `_b_scale_reward_or_penalty` (+3 exact, -4 mismatch, -2 missing). -/
def b_scale_reward_or_penalty (aa_slug model_id model_name : String) : Rat :=
  match first_parsed_number (split_tokens aa_slug) parse_b_scale_token with
  | none => 0
  | some aa_b_scale =>
    match candidateBScale model_id model_name with
    | none => -2
    | some candidate_b_scale => if candidate_b_scale = aa_b_scale then 3 else -4

/-- Embeds `_has_hard_b_scale_mismatch`. -/
def has_hard_b_scale_mismatch (aa_slug model_id model_name : String) : Bool :=
  match first_parsed_number (split_tokens aa_slug) parse_b_scale_token with
  | none => false
  | some aa_b_scale =>
    match candidateBScale model_id model_name with
    | none => false
    | some candidate_b_scale => candidate_b_scale ≠ aa_b_scale

/-- Candidate active-parameter resolution of `_active_b_reward_or_penalty`. -/
def candidateActiveB (model_id model_name : String) : Option Nat :=
  match first_parsed_number (split_tokens (split_base_model_id model_id)) parse_active_b_token with
  | some b => some b
  | none => first_parsed_number (split_tokens model_name) parse_active_b_token

/-- Embeds `_active_b_reward_or_penalty` (+2 exact, -2 mismatch, 0 absent). -/
def active_b_reward_or_penalty (aa_slug model_id model_name : String) : Rat :=
  match first_parsed_number (split_tokens aa_slug) parse_active_b_token with
  | none => 0
  | some aa_active_b =>
    match candidateActiveB model_id model_name with
    | none => 0
    | some candidate_active_b => if candidate_active_b = aa_active_b then 2 else -2

/-- Embeds `_same_variant_reward` (VARIANT_SUFFIX_REWARD = 2). -/
def same_variant_reward (aa_slug model_id model_name : String) : Rat :=
  let aa_tokens := split_tokens aa_slug
  let model_base_tokens := split_tokens (split_base_model_id model_id)
  let model_name_tokens := split_tokens model_name
  match aa_tokens.getLast? with
  | none => 0
  | some aa_last_token =>
    if is_numeric_token (some aa_last_token) then 0
    else if model_base_tokens.getLast? = some aa_last_token
        || model_name_tokens.getLast? = some aa_last_token then 2
    else 0

/-- Inner `compare_sets` of `_coverage_reward_or_penalty`; token sets are
modelled as deduplicated lists (membership and cardinality are all that is
used). -/
def coverage_compare_sets (aa_set candidate_set : List String) : Rat :=
  if aa_set.isEmpty then 0
  else
    let missing_count := aa_set.countP fun token => !(candidate_set.contains token)
    if 0 < missing_count then -(1 + (missing_count : Rat))
    else if candidate_set.length = aa_set.length then 4
    else 0

/-- Embeds `_coverage_reward_or_penalty` (+4 exact cover, else minus one minus
the missing count; better of id-tail set and name set). -/
def coverage_reward_or_penalty (aa_slug model_id model_name : String) : Rat :=
  let aa_set := (split_tokens aa_slug).dedup
  let base_set := (split_tokens (split_base_model_id model_id)).dedup
  let name_set := (split_tokens model_name).dedup
  max (coverage_compare_sets aa_set base_set) (coverage_compare_sets aa_set name_set)

/-- Embeds `_has_first_token_match`. -/
def has_first_token_match (aa_slug model_id model_name : String) : Bool :=
  match split_tokens aa_slug with
  | [] => false
  | aa_first :: _ =>
    (match split_tokens (split_base_model_id model_id) with
      | base_first :: _ => base_first = aa_first
      | [] => false)
    || (match split_tokens model_name with
      | name_first :: _ => name_first = aa_first
      | [] => false)

/-- Embeds `_score_candidate`: the two hard vetoes (zero character-level
common-prefix length against both normalized candidate strings; parameter-scale
mismatch), then the additive scoring terms. -/
def score_candidate (aa_slug model_id model_name : String) : Rat :=
  let normalized_aa := normalize aa_slug
  let normalized_model_base := normalize (split_base_model_id model_id)
  let normalized_model_name := normalize model_name
  let aa_tokens := split_tokens aa_slug
  let model_base_tokens := split_tokens (split_base_model_id model_id)
  let model_name_tokens := split_tokens model_name
  let prefBase := common_prefix_length normalized_aa normalized_model_base
  let prefName := common_prefix_length normalized_aa normalized_model_name
  let maxPref := max prefBase prefName
  if maxPref = 0 then 0
  else if has_hard_b_scale_mismatch aa_slug model_id model_name then 0
  else
    let weighted_token_score := max
      (weighted_token_prefix_score aa_tokens model_base_tokens)
      (weighted_token_prefix_score aa_tokens model_name_tokens)
    ((weighted_token_score : Rat) * 2)
      + numeric_match_reward aa_slug model_id
      + numeric_closeness_reward aa_slug model_id
      + same_variant_reward aa_slug model_id model_name
      + b_scale_reward_or_penalty aa_slug model_id model_name
      + active_b_reward_or_penalty aa_slug model_id model_name
      + coverage_reward_or_penalty aa_slug model_id model_name
      + (maxPref : Rat) * (3/100)
      - |(normalized_aa.data.length : Rat) - (normalized_model_base.data.length : Rat)| * (1/200)

/-! ### matcher.py: candidate collection and mapping -/

/-- A MatchCandidate row. -/
structure MatchCandidate where
  model_id : String
  provider_id : String
  provider_name : String
  model_name : Option String
  score : Rat
  deriving DecidableEq, Repr, Inhabited

/-- Ordering used to embed `sorted(key=(-score, model_id))`: `a` before `b`
when `a` has the larger score, or equal scores and `a.model_id` at most
`b.model_id` in Python string order. -/
def candRel (a b : MatchCandidate) : Prop :=
  b.score < a.score ∨ (a.score = b.score ∧ strLeB a.model_id b.model_id = true)

instance : DecidableRel candRel := fun a b =>
  inferInstanceAs
    (Decidable (b.score < a.score ∨ (a.score = b.score ∧ strLeB a.model_id b.model_id = true)))

/-- Embeds `_scope_to_openrouter_models` (PROVIDER_FILTER). -/
def scope_to_openrouter_models (models_dev_models : List MDRow) : List MDRow :=
  models_dev_models.filter fun m => m.provider_id = "openrouter"

/-- Candidate built for one models.dev row in
`_collect_candidates_for_aa_model`, `none` when the row is gated out or scores
at most 0. -/
def candidate_for_row (aa_slug : String) (row : MDRow) : Option MatchCandidate :=
  let model_name := row.model.name.getD ""
  let model_id := row.model_id
  if !(has_first_token_match aa_slug model_id model_name) then none
  else
    let score := score_candidate aa_slug model_id model_name
    if score ≤ 0 then none
    else some
      { model_id := model_id
        provider_id := row.provider_id
        provider_name := row.provider_name
        model_name := if model_name = "" then none else some model_name
        score := score }

/-- Embeds `_collect_candidates_for_aa_model` (operating on an enriched
Artificial Analysis model dict; `str(slug or "")` empties a missing slug). -/
def collect_candidates_for_aa_model (aa_model : AAEnrichedModel)
    (models_dev_models : List MDRow) : List MatchCandidate :=
  let aa_slug := (pyOrStr aa_model.model.slug none).getD ""
  if aa_slug = "" then []
  else List.insertionSort candRel (models_dev_models.filterMap (candidate_for_row aa_slug))

/-- A MatchMappedModel row of the mapping payload. -/
structure MatchMappedModel where
  artificial_analysis_slug : String
  artificial_analysis_name : Option String
  artificial_analysis_release_date : Option String
  best_match : Option MatchCandidate
  candidates : List MatchCandidate
  deriving DecidableEq, Repr, Inhabited

/-- Score of the best match of a mapped row, when present (`best_match` is
either absent or a candidate dict whose `score` is numeric). -/
def bestScore (m : MatchMappedModel) : Option Rat := m.best_match.map MatchCandidate.score

/-- Embeds `_apply_maxmin_half_void` on mapping rows: collect the best-match
scores, sort them, take min and max, and clear every row strictly below
`min + (max - min) * 35/100`; returns (void threshold, voided count) and the
updated rows. -/
def apply_maxmin_half_void (models : List MatchMappedModel) :
    (Option Rat × Nat) × List MatchMappedModel :=
  let scores := List.insertionSort (· ≤ ·) (models.filterMap bestScore)
  match scores with
  | [] => ((none, 0), models)
  | s :: rest =>
    let min_score := s
    let max_score := (s :: rest).getLast (List.cons_ne_nil s rest)
    let threshold := min_score + (max_score - min_score) * (35/100)
    let voided := models.countP fun m =>
      match bestScore m with
      | some q => decide (q < threshold)
      | none => false
    ((some threshold, voided),
      models.map fun m =>
        match bestScore m with
        | some q =>
          if q < threshold then { m with best_match := none, candidates := [] } else m
        | none => m)

/-- Options dict of `get_match_model_mapping`. -/
structure MatchMappingOptions where
  max_candidates : Option Int
  deriving DecidableEq, Repr, Inhabited

/-- Embeds `int(options.get("max_candidates") or DEFAULT_MAX_CANDIDATES)`:
a missing or zero (falsy) value becomes the default 5. -/
def effective_max_candidates (options : Option MatchMappingOptions) : Int :=
  match options with
  | none => 5
  | some o =>
    match o.max_candidates with
    | none => 5
    | some v => if v = 0 then 5 else v

/-- Python `lst[:n]` for an integer `n`: from the start up to `n` clamped, a
negative `n` counting from the end. -/
def pySliceTo {α : Type} (n : Int) (l : List α) : List α :=
  if 0 ≤ n then l.take n.toNat else l.take (l.length - (-n).toNat)

/-- Output payload of `get_match_model_mapping`. -/
structure MatchModelMappingPayload where
  artificial_analysis_fetched_at_epoch_seconds : Option Int
  models_dev_fetched_at_epoch_seconds : Option Int
  total_artificial_analysis_models : Nat
  total_models_dev_models : Nat
  max_candidates : Int
  void_mode : String
  void_threshold : Option Rat
  voided_count : Nat
  models : List MatchMappedModel
  deriving DecidableEq, Repr, Inhabited

/-- Embeds `get_match_model_mapping`.  The two source payloads are the results
of the underlying entry-point calls, passed as inputs; the body after the
`max_candidates` coercion is total, so the outer exception branch of the
source is unreachable in the embedding. -/
def get_match_model_mapping (options : Option MatchMappingOptions)
    (artificial_analysis_stats : AAPayload) (models_dev_stats : MDPayload) :
    MatchModelMappingPayload :=
  let max_candidates := effective_max_candidates options
  let scoped_models_dev_models := scope_to_openrouter_models models_dev_stats.models
  let models := artificial_analysis_stats.models.map fun aa_model =>
    let candidates := pySliceTo max_candidates
      (collect_candidates_for_aa_model aa_model scoped_models_dev_models)
    { artificial_analysis_slug := aa_model.model.slug.getD ""
      artificial_analysis_name := aa_model.model.name
      artificial_analysis_release_date := aa_model.model.release_date
      best_match := candidates.head?
      candidates := candidates : MatchMappedModel }
  let voided := apply_maxmin_half_void models
  { artificial_analysis_fetched_at_epoch_seconds :=
      artificial_analysis_stats.fetched_at_epoch_seconds
    models_dev_fetched_at_epoch_seconds := models_dev_stats.fetched_at_epoch_seconds
    total_artificial_analysis_models := models.length
    total_models_dev_models := scoped_models_dev_models.length
    max_candidates := max_candidates
    void_mode := "maxmin_half"
    void_threshold := voided.1.1
    voided_count := voided.1.2
    models := voided.2 }

/-! ### matcher.py: union construction -/

/-- The union dict `\x7b**models_dev_model_fields, **aa_model_fields,
"name": ...\x7d`: the models.dev model fields are spread first and the
Artificial Analysis fields overlay them, so the record keeps both sides intact
(the overlapping keys resolve to the Artificial Analysis side, except `name`,
which is set explicitly). -/
structure UnionModel where
  models_dev_model : Option MDModel
  artificial_analysis_model : AAEnrichedModel
  name : Option String
  deriving DecidableEq, Repr, Inhabited

/-- One row built by the loop of `get_match_models_union` (these rows carry no
`candidates` key, so the voiding pass clears only `best_match` on them). -/
structure MatchUnionRow where
  artificial_analysis_slug : String
  artificial_analysis_name : Option String
  artificial_analysis_release_date : Option String
  best_match : Option MatchCandidate
  artificial_analysis : AAEnrichedModel
  models_dev : Option MDRow
  union : UnionModel
  deriving DecidableEq, Repr, Inhabited

/-- Best-match score of a union row, when present. -/
def bestScoreU (row : MatchUnionRow) : Option Rat := row.best_match.map MatchCandidate.score

/-- Embeds the row construction of `get_match_models_union` for one
Artificial Analysis model. -/
def build_union_row (aa_model : AAEnrichedModel) (scoped_models_dev_models : List MDRow) :
    MatchUnionRow :=
  let candidates := collect_candidates_for_aa_model aa_model scoped_models_dev_models
  let best_match := candidates.head?
  let matched_models_dev :=
    match best_match with
    | none => none
    | some bm => scoped_models_dev_models.find? fun row => row.model_id = bm.model_id
  { artificial_analysis_slug := aa_model.model.slug.getD ""
    artificial_analysis_name := aa_model.model.name
    artificial_analysis_release_date := aa_model.model.release_date
    best_match := best_match
    artificial_analysis := aa_model
    models_dev := matched_models_dev
    union :=
      { models_dev_model := matched_models_dev.map MDRow.model
        artificial_analysis_model := aa_model
        name := pyOrStr ((matched_models_dev.map MDRow.model).bind MDModel.name)
          aa_model.model.name } }

/-- Embeds `_apply_maxmin_half_void` as applied to the union rows, which carry
no `candidates` key: only `best_match` is cleared. -/
def apply_maxmin_half_void_union (rows : List MatchUnionRow) :
    (Option Rat × Nat) × List MatchUnionRow :=
  let scores := List.insertionSort (· ≤ ·) (rows.filterMap bestScoreU)
  match scores with
  | [] => ((none, 0), rows)
  | s :: rest =>
    let min_score := s
    let max_score := (s :: rest).getLast (List.cons_ne_nil s rest)
    let threshold := min_score + (max_score - min_score) * (35/100)
    let voided := rows.countP fun row =>
      match bestScoreU row with
      | some q => decide (q < threshold)
      | none => false
    ((some threshold, voided),
      rows.map fun row =>
        match bestScoreU row with
        | some q => if q < threshold then { row with best_match := none } else row
        | none => row)

/-- Output payload of `get_match_models_union`. -/
structure MatchModelsUnionPayload where
  artificial_analysis_fetched_at_epoch_seconds : Option Int
  models_dev_fetched_at_epoch_seconds : Option Int
  total_artificial_analysis_models : Nat
  total_models_dev_models : Nat
  void_mode : String
  void_threshold : Option Rat
  voided_count : Nat
  total_union_models : Nat
  models : List UnionModel
  deriving DecidableEq, Repr, Inhabited

/-- Embeds `get_match_models_union` (the `_options` parameter is unused by the
source).  The source payloads are the results of the underlying entry-point
calls; the body is total, so the outer exception branch is unreachable in the
embedding. -/
def get_match_models_union (artificial_analysis_stats : AAPayload)
    (models_dev_stats : MDPayload) : MatchModelsUnionPayload :=
  let scoped_models_dev_models := scope_to_openrouter_models models_dev_stats.models
  let rows := artificial_analysis_stats.models.map fun aa_model =>
    build_union_row aa_model scoped_models_dev_models
  let voided := apply_maxmin_half_void_union rows
  let unions := (voided.2.filter fun row => row.best_match.isSome).map MatchUnionRow.union
  { artificial_analysis_fetched_at_epoch_seconds :=
      artificial_analysis_stats.fetched_at_epoch_seconds
    models_dev_fetched_at_epoch_seconds := models_dev_stats.fetched_at_epoch_seconds
    total_artificial_analysis_models := artificial_analysis_stats.models.length
    total_models_dev_models := scoped_models_dev_models.length
    void_mode := "maxmin_half"
    void_threshold := voided.1.1
    voided_count := voided.1.2
    total_union_models := unions.length
    models := unions }

/-! ### model_stats.py: data model

Field provenance on a union dict: the models.dev model fields are spread first
and the Artificial Analysis model fields overlay them, so `id`, `attachment`,
`reasoning`, `modalities`, `open_weights`, `cost` and `limit` come from the
models.dev side (the Artificial Analysis records carry no such keys after
`_remove_ids`), while `release_date`, `model_creator`, the `median_` latency
fields, `evaluations`, `scores` and `percentiles` come from the Artificial
Analysis side. -/

/-- Fields collected by `_build_speed`: the union keys starting `median_`
(both from the Artificial Analysis side). -/
structure SelectedSpeed where
  median_time_to_first_answer_token : Option Rat
  median_output_tokens_per_second : Option Rat
  deriving DecidableEq, Repr, Inhabited

/-- One model of the final selected payload. -/
structure SelectedModel where
  id : Option String
  name : Option String
  provider : Option String
  logo : String
  attachment : Option Bool
  reasoning : Option Bool
  release_date : Option String
  modalities : Option String
  open_weights : Option Bool
  cost : Option MDCost
  context_window : Option String
  speed : SelectedSpeed
  evaluations : AAEvaluations
  scores : AAScores
  percentiles : AAPercentiles
  deriving DecidableEq, Repr, Inhabited

/-- Final selected payload (and the shape of the selection cache file). -/
structure SelectedPayload where
  fetched_at_epoch_seconds : Option Int
  models : List SelectedModel
  deriving DecidableEq, Repr, Inhabited

/-! ### model_stats.py: functions -/

/-- Embeds `_provider_from_id`: the substring before the first slash, `None`
when the value is not a string, has no slash, or starts with a slash. -/
def provider_from_id (model_id : Option String) : Option String :=
  match model_id with
  | none => none
  | some s =>
    match s.data.findIdx? fun c => c = '/' with
    | none => none
    | some 0 => none
    | some slash_index => some (String.mk (s.data.take slash_index))

/-- Embeds `_build_logo`. -/
def build_logo (model_creator : Option AACreator) (provider : Option String) : String :=
  let logo_slug := model_creator.bind AACreator.slug
  if truthyStr logo_slug then
    "https://artificialanalysis.ai/img/logos/" ++ logo_slug.getD "" ++ "_small.svg"
  else
    let provider_name := if truthyStr provider then provider.getD "" else "unknown"
    "https://models.dev/logos/" ++ provider_name ++ ".svg"

/-- Embeds `_map_union_model_to_selected` on a union dict (field provenance as
in the section header; every `isinstance` guard is the identity on the typed
encoding, whose `Option` fields already stand for present-and-well-typed
values). -/
def map_union_model_to_selected (union_model : UnionModel) : SelectedModel :=
  let md := union_model.models_dev_model
  let aa := union_model.artificial_analysis_model
  let id := md.bind MDModel.id
  let provider := provider_from_id id
  { id := id
    name := union_model.name
    provider := provider
    logo := build_logo aa.model.model_creator provider
    attachment := md.bind MDModel.attachment
    reasoning := md.bind MDModel.reasoning
    release_date := aa.model.release_date
    modalities := md.bind MDModel.modalities
    open_weights := md.bind MDModel.open_weights
    cost := (md.map MDModel.cost).getD none
    context_window := md.bind MDModel.limit
    speed :=
      { median_time_to_first_answer_token := aa.model.median_time_to_first_answer_token
        median_output_tokens_per_second := aa.model.median_output_tokens_per_second }
    evaluations := aa.model.evaluations
    scores := aa.scores
    percentiles := aa.percentiles }

/-- CACHE_TTL_SECONDS of model_stats.py (24 hours). -/
def CACHE_TTL_SECONDS : Int := 60 * 60 * 24

/-- Embeds `_is_fresh_cache`: the argument is the cache `fetched_at` value
(`none` when absent or non-numeric); freshness truncates it to an integer and
requires the age to be between 0 and the TTL inclusive. -/
def is_fresh_cache (now : Int) (fetched_at_epoch_seconds : Option Rat) : Bool :=
  match fetched_at_epoch_seconds with
  | none => false
  | some q =>
    let age_seconds := now - pyTrunc q
    decide (0 ≤ age_seconds) && decide (age_seconds ≤ CACHE_TTL_SECONDS)

/-- Parse result of the selection cache file: `none` when the file is missing,
unreadable, not valid JSON, or not a JSON object; otherwise the
`fetched_at_epoch_seconds` value when present and numeric, and the `models`
value when present and a list. -/
structure CacheDoc where
  fetched_at_epoch_seconds : Option Rat
  models : Option (List SelectedModel)
  deriving DecidableEq, Repr, Inhabited

/-- Embeds `_load_model_stats_selected_from_cache`. -/
def load_model_stats_selected_from_cache (now : Int) (cache_file : Option CacheDoc) :
    Option SelectedPayload :=
  match cache_file with
  | none => none
  | some payload =>
    match payload.models with
    | none => none
    | some models =>
      match payload.fetched_at_epoch_seconds with
      | none => none
      | some fetched_at =>
        if is_fresh_cache now (some fetched_at) then
          some { fetched_at_epoch_seconds := some (pyTrunc fetched_at), models := models }
        else none

/-- Options dict of `get_model_stats_selected`. -/
structure SelOptions where
  id : Option String
  deriving DecidableEq, Repr, Inhabited

/-- Environment of one `get_model_stats_selected` call: the options, the parse
result of the selection cache file, the current epoch second, and the payload
the inner `get_match_models_union()` call returns (that call itself never
raises). -/
structure SelEnv where
  options : Option SelOptions
  cache_file : Option CacheDoc
  now : Int
  union_payload : MatchModelsUnionPayload
  deriving DecidableEq, Repr, Inhabited

/-- Embeds `get_model_stats_selected`.  The second component records the
best-effort cache write: `some payload` when `save_model_stats_selected` is
invoked with `payload` (its own write failures are swallowed and change
nothing else), `none` when no write is attempted.  The body is total, so the
outer exception branch of the source is unreachable in the embedding. -/
def get_model_stats_selected (env : SelEnv) : SelectedPayload × Option SelectedPayload :=
  let model_id := env.options.bind SelOptions.id
  match model_id with
  | none =>
    match load_model_stats_selected_from_cache env.now env.cache_file with
    | some cached_payload => (cached_payload, none)
    | none =>
      let all_models := env.union_payload.models.map map_union_model_to_selected
      let list_payload : SelectedPayload :=
        { fetched_at_epoch_seconds := some env.now, models := all_models }
      (list_payload, some list_payload)
  | some mid =>
    let all_models := env.union_payload.models.map map_union_model_to_selected
    let filtered_models := all_models.filter fun m => m.id = some mid
    ({ fetched_at_epoch_seconds := some env.now, models := filtered_models }, none)

/-! ### clients/aa_stats.py: raw-source cache resolution -/

/-- Raw-source cache entry shape, `\x7bfetched_at_epoch_seconds, status_code,
models[]\x7d`, as written by `_fetch_and_cache_models`. -/
structure RawCacheEntry where
  fetched_at_epoch_seconds : Int
  status_code : Option Int
  models : List AAModel
  deriving DecidableEq, Repr, Inhabited

/-- DEFAULT_CACHE_TTL_SECONDS of clients/aa_stats.py (12 hours), the default of
the AA_CACHE_TTL_SECONDS environment override. -/
def DEFAULT_CACHE_TTL_SECONDS : Int := 60 * 60 * 12

/-- Embeds `_fetch_and_cache_models` of clients/aa_stats.py: raises a
configuration error without a request when the key is falsy, otherwise issues
one request and on success builds (and writes to disk, not modelled further)
the cache entry.  The second component counts HTTP request attempts. -/
def fetch_and_cache_models (api_key : Option String)
    (http : Except PyErr (Int × List AAModel)) (now : Int) :
    Except PyErr RawCacheEntry × Nat :=
  if truthyStr api_key then
    match http with
    | Except.error e => (Except.error e, 1)
    | Except.ok (status_code, models) =>
      (Except.ok
        { fetched_at_epoch_seconds := now
          status_code := some status_code
          models := models }, 1)
  else (Except.error PyErr.config, 0)

/-- Embeds the cache-resolution block of `get_aa_stats` (clients/aa_stats.py):
on a forced refresh, fetch; otherwise serve the loaded cache entry when its age
is at most the TTL, and refetch when the load failed (`cache = none`) or the
entry is stale.  A failing refetch of a stale entry is retried once by the
enclosing `except` handler, hence the two-attempt composition in that branch.
`refresh` and `ttl` come from the AA_REFRESH and AA_CACHE_TTL_SECONDS
environment variables. -/
def aa_stats_resolve_cache (refresh : Bool) (api_key : Option String)
    (cache : Option RawCacheEntry) (ttl now : Int)
    (http : Except PyErr (Int × List AAModel)) : Except PyErr RawCacheEntry × Nat :=
  if refresh then fetch_and_cache_models api_key http now
  else
    match cache with
    | none => fetch_and_cache_models api_key http now
    | some entry =>
      let age_seconds := now - entry.fetched_at_epoch_seconds
      if ttl < age_seconds then
        match fetch_and_cache_models api_key http now with
        | (Except.ok refreshed, attempts) => (Except.ok refreshed, attempts)
        | (Except.error _, attempts) =>
          let second := fetch_and_cache_models api_key http now
          (second.1, attempts + second.2)
      else (Except.ok entry, 0)

/-! ### Claim-side formulas (stated from the words of the specification, for
comparison with the source embedding) -/

/-- Percentile formula asserted by the specification for claim C4: count of
population members whose column value is at most the given value, divided by
the full population size, times 100.  A member whose column value is null does
not count in the numerator but does count in the denominator. -/
def claimed_percentile (population_column : List (Option Rat)) (x : Rat) : Rat :=
  ((population_column.countP fun v => (v.map fun q => decide (q ≤ x)).getD false) : Rat)
    / (population_column.length : Rat) * 100

/-- Corrected percentile formula: both the count and the denominator range
over the population members with a non-null value in the column; the
percentile is null when the value itself is null or no member has a value. -/
def column_percentile (population_column : List (Option Rat)) (value : Option Rat) :
    Option Rat :=
  match value with
  | none => none
  | some x =>
    let non_null := population_column.countP Option.isSome
    if non_null = 0 then none
    else some
      (((population_column.countP fun v => (v.map fun q => decide (q ≤ x)).getD false) : Rat)
        / (non_null : Rat) * 100)

/-! ### Example inputs used by the witness theorems -/

/-- Logarithm stand-in for concrete evaluation; none of the verified
properties depend on its values. -/
def egLg : Rat → Rat := fun _ => 0

/-- A fully priced and timed recent model (the end-to-end example of the
specification). -/
def egAAMini : AAModel :=
  { slug := some "gpt-5-mini"
    name := some "GPT-5 Mini (AA)"
    release_date := some "2025-06-01"
    pricing :=
      { price_1m_blended_3_to_1 := some 1
        price_1m_input_tokens := some 1
        price_1m_output_tokens := some 1 }
    evaluations :=
      { artificial_analysis_intelligence_index := some 50
        artificial_analysis_coding_index := some 40
        hle := none, terminalbench_hard := none, lcr := none
        ifbench := none, scicode := none }
    median_time_to_first_answer_token := some (1/2)
    median_output_tokens_per_second := some 80
    model_creator := none }

/-- Environment for a successful Artificial Analysis call returning the one
example model. -/
def egAAEnv : AAEnv :=
  { api_key := some "key"
    http := Except.ok { status_code := 200, data := [egAAMini] }
    now := 1700000000
    cutoff_date := "2025-01-01"
    lg := egLg }

/-- The matching models.dev model of the end-to-end example. -/
def egMDMini : MDModel :=
  { id := some "openai/gpt-5-mini"
    name := some "GPT-5 Mini"
    release_date := some "2025-08-07"
    attachment := some true
    reasoning := some true
    open_weights := some false
    modalities := some "text"
    cost := some { output := some 2 }
    limit := some "400000" }

/-- Environment for a successful models.dev call returning the one matching
row under the openrouter provider. -/
def egMDEnv : MDEnv :=
  { http := Except.ok
      (200, [{ key := "openrouter"
               name := some "OpenRouter"
               models := [{ key := "gpt-5-mini", model := egMDMini }] }])
    now := 1700000001
    cutoff_date := "2025-01-01" }

/-- Model with both evaluation indexes, for the percentile counterexample. -/
def egAAAlpha : AAModel :=
  { egAAMini with
    slug := some "alpha"
    name := some "Alpha"
    evaluations :=
      { artificial_analysis_intelligence_index := some 1
        artificial_analysis_coding_index := some 1
        hle := none, terminalbench_hard := none, lcr := none
        ifbench := none, scicode := none } }

/-- Model without the coding index (null intelligence score, non-null overall
score), for the percentile counterexample. -/
def egAABeta : AAModel :=
  { egAAMini with
    slug := some "beta"
    name := some "Beta"
    evaluations :=
      { artificial_analysis_intelligence_index := some 1
        artificial_analysis_coding_index := none
        hle := none, terminalbench_hard := none, lcr := none
        ifbench := none, scicode := none } }

/-- Environment whose scored population mixes a model with a null
intelligence score into the population. -/
def egAAEnvC4 : AAEnv :=
  { egAAEnv with http := Except.ok { status_code := 200, data := [egAAAlpha, egAABeta] } }

/-- The union payload produced when both source fetches fail with a transport
error. -/
def egUnionFail : MatchModelsUnionPayload :=
  get_match_models_union
    (get_artificial_analysis_stats
      { api_key := some "key", http := Except.error PyErr.transport
        now := 999, cutoff_date := "2025-01-01", lg := egLg })
    (get_models_dev_stats
      { http := Except.error PyErr.transport, now := 999, cutoff_date := "2025-01-01" })

/-- Selection environment with a fresh, well-formed cache whose numeric
`fetched_at` is not an integer (age 100 seconds after truncation). -/
def egSelEnvC9 : SelEnv :=
  { options := none
    cache_file := some { fetched_at_epoch_seconds := some (201/2), models := some [] }
    now := 200
    union_payload := egUnionFail }

/-- Selection environment in list mode with no cache file and failing
sources. -/
def egSelEnvFail : SelEnv :=
  { options := none, cache_file := none, now := 1000, union_payload := egUnionFail }

/-- Selection environment whose cache `fetched_at` lies strictly in the
future. -/
def egSelEnvC10 : SelEnv :=
  { options := none
    cache_file := some { fetched_at_epoch_seconds := some 5000, models := some [] }
    now := 1000
    union_payload := egUnionFail }

/-- A raw-source cache entry created at the same epoch second as the
`egAAEnv` call, hence younger than any positive TTL. -/
def egRawCacheFresh : RawCacheEntry :=
  { fetched_at_epoch_seconds := 1700000000, status_code := some 200, models := [egAAMini] }

/-- A mapping row with the given slug and best-match score (the single
candidate doubles as the best match). -/
def egMappedRow (slug : String) (score : Rat) : MatchMappedModel :=
  { artificial_analysis_slug := slug
    artificial_analysis_name := none
    artificial_analysis_release_date := none
    best_match := some
      { model_id := "p/" ++ slug, provider_id := "openrouter"
        provider_name := "OpenRouter", model_name := none, score := score }
    candidates :=
      [{ model_id := "p/" ++ slug, provider_id := "openrouter"
         provider_name := "OpenRouter", model_name := none, score := score }] }

/-- Two mapping rows with best-match scores 1 and 11: the voiding threshold is
1 + (11 - 1) * 35/100 = 9/2, so the first row is voided and the second
kept. -/
def egVoidRows : List MatchMappedModel := [egMappedRow ("low") 1, egMappedRow ("high") 11]


/-! ### Supporting order lemmas and sort-relation instances -/

theorem charsLtB_asymm (a : List Char) : ∀ (b : List Char),
    charsLtB a b = true → charsLtB b a = false := by
  induction a with
  | nil =>
    intro b h
    cases b with
    | nil => simp [charsLtB] at h
    | cons c cs => simp [charsLtB]
  | cons x xs ih =>
    intro b h
    cases b with
    | nil => simp [charsLtB] at h
    | cons y ys =>
      simp only [charsLtB] at h ⊢
      by_cases hxy : x < y
      · simp [hxy, lt_asymm hxy]
      · by_cases hyx : y < x
        · simp [hxy, hyx] at h
        · simp only [hxy, hyx, if_false] at h ⊢
          exact ih ys h

theorem charsLtB_trans (a : List Char) : ∀ (b c : List Char),
    charsLtB a b = true → charsLtB b c = true → charsLtB a c = true := by
  induction a with
  | nil =>
    intro b c hab hbc
    cases b with
    | nil => simp [charsLtB] at hab
    | cons y ys =>
      cases c with
      | nil => simp [charsLtB] at hbc
      | cons z zs => simp [charsLtB]
  | cons x xs ih =>
    intro b c hab hbc
    cases b with
    | nil => simp [charsLtB] at hab
    | cons y ys =>
      cases c with
      | nil => simp [charsLtB] at hbc
      | cons z zs =>
        simp only [charsLtB] at hab hbc ⊢
        by_cases hxy : x < y
        · by_cases hyz : y < z
          · simp [lt_trans hxy hyz]
          · by_cases hzy : z < y
            · simp [hyz, hzy] at hbc
            · have hyzeq : y = z := le_antisymm (not_lt.mp hzy) (not_lt.mp hyz)
              simp [hyzeq ▸ hxy]
        · by_cases hyx : y < x
          · simp [hxy, hyx] at hab
          · have hxyeq : x = y := le_antisymm (not_lt.mp hyx) (not_lt.mp hxy)
            subst hxyeq
            by_cases hxz : x < z
            · simp [hxz]
            · by_cases hzx : z < x
              · simp [hxz, hzx] at hbc
              · simp only [hxz, hzx, if_false] at hbc ⊢
                simp only [hxy, if_false] at hab
                exact ih ys zs hab hbc

theorem charsLtB_eq_of_not_lt (a : List Char) : ∀ (b : List Char),
    charsLtB a b = false → charsLtB b a = false → a = b := by
  induction a with
  | nil =>
    intro b hab _
    cases b with
    | nil => rfl
    | cons y ys => simp [charsLtB] at hab
  | cons x xs ih =>
    intro b hab hba
    cases b with
    | nil => simp [charsLtB] at hba
    | cons y ys =>
      simp only [charsLtB] at hab hba
      by_cases hxy : x < y
      · simp [hxy] at hab
      · by_cases hyx : y < x
        · simp [hxy, hyx] at hba
        · have hxyeq : x = y := le_antisymm (not_lt.mp hyx) (not_lt.mp hxy)
          simp only [hxy, hyx, if_false] at hab hba
          exact hxyeq ▸ congrArg (x :: ·) (ih ys hab hba)

theorem strLeB_total (a b : String) : strLeB a b = true ∨ strLeB b a = true := by
  unfold strLeB
  by_cases h : charsLtB b.data a.data = true
  · exact Or.inr (by simp [charsLtB_asymm _ _ h])
  · exact Or.inl (by simp [Bool.eq_false_iff.mpr (fun hc => h hc)])

theorem strLeB_trans (a b c : String) (hab : strLeB a b = true) (hbc : strLeB b c = true) :
    strLeB a c = true := by
  unfold strLeB at hab hbc ⊢
  simp only [Bool.not_eq_true'] at hab hbc ⊢
  by_contra hca
  have hca' : charsLtB c.data a.data = true := by
    revert hca; cases charsLtB c.data a.data <;> simp
  cases hab' : charsLtB a.data b.data with
  | true =>
    have htr := charsLtB_trans c.data a.data b.data hca' hab'
    rw [hbc] at htr
    exact Bool.noConfusion htr
  | false =>
    have heq : a.data = b.data := charsLtB_eq_of_not_lt a.data b.data hab' hab
    rw [heq, hbc] at hca'
    exact Bool.noConfusion hca'

instance : IsTotal MatchCandidate candRel := by
  refine ⟨fun a b => ?_⟩
  rcases lt_trichotomy a.score b.score with h | h | h
  · exact Or.inr (Or.inl h)
  · rcases strLeB_total a.model_id b.model_id with hs | hs
    · exact Or.inl (Or.inr ⟨h, hs⟩)
    · exact Or.inr (Or.inr ⟨h.symm, hs⟩)
  · exact Or.inl (Or.inl h)

instance : IsTrans MatchCandidate candRel := by
  refine ⟨fun a b c hab hbc => ?_⟩
  rcases hab with hab | ⟨hab1, hab2⟩
  · rcases hbc with hbc | ⟨hbc1, hbc2⟩
    · exact Or.inl (lt_trans hbc hab)
    · exact Or.inl (hbc1 ▸ hab)
  · rcases hbc with hbc | ⟨hbc1, hbc2⟩
    · exact Or.inl (hab1 ▸ hbc)
    · exact Or.inr ⟨hab1.trans hbc1, strLeB_trans _ _ _ hab2 hbc2⟩

instance : IsTotal AAScoredModel rankRel :=
  ⟨fun a b => le_total (overallKey b) (overallKey a)⟩

instance : IsTrans AAScoredModel rankRel :=
  ⟨fun _ _ _ hab hbc => le_trans hbc hab⟩

instance : IsTotal MDRow mdCostRel := ⟨fun a b => le_total (mdCostKey a) (mdCostKey b)⟩

instance : IsTrans MDRow mdCostRel := ⟨fun _ _ _ hab hbc => le_trans hab hbc⟩

/-! ### Supporting lemmas about the embedded helpers -/

theorem is_positive_finite_iff (v : Option Rat) :
    is_positive_finite v = true ↔ ∃ q, v = some q ∧ 0 < q := by
  cases v with
  | none => simp [is_positive_finite, as_finite_float]
  | some q => simp [is_positive_finite, as_finite_float]

theorem length_filterMap_id {α : Type} (values : List (Option α)) :
    (values.filterMap id).length = values.countP Option.isSome := by
  induction values with
  | nil => rfl
  | cons v rest ih => cases v <;> simp [List.countP_cons, ih]

theorem countP_filterMap_id {α : Type} (p : α → Bool) (values : List (Option α)) :
    (values.filterMap id).countP p = values.countP fun v => (v.map p).getD false := by
  induction values with
  | nil => rfl
  | cons v rest ih => cases v <;> simp [List.countP_cons, ih]

/-- The source percentile helper computes exactly the corrected formula of
claim C4: counting and dividing over the non-null values of the column. -/
theorem percentile_rank_eq_column (values : List (Option Rat)) (value : Option Rat) :
    percentile_rank values value = column_percentile values value := by
  cases value with
  | none => rfl
  | some x =>
    simp only [percentile_rank, column_percentile, as_finite_float]
    have hlen := length_filterMap_id values
    have hcount := countP_filterMap_id (fun v => decide (v ≤ x)) values
    rcases Nat.eq_zero_or_pos (values.filterMap id).length with h0 | hpos
    · have he : (values.filterMap id).isEmpty = true :=
        List.isEmpty_iff_length_eq_zero.mpr h0
      have hz : values.countP Option.isSome = 0 := by rw [← hlen]; exact h0
      simp [he, hz]
    · have hne : (values.filterMap id).length ≠ 0 := Nat.pos_iff_ne_zero.mp hpos
      have he : (values.filterMap id).isEmpty = false := by
        rcases hh : values.filterMap id with _ | ⟨a, rest⟩
        · exact absurd (by rw [hh]; rfl) hne
        · rfl
      have hnz : values.countP Option.isSome ≠ 0 := by rw [← hlen]; exact hne
      rw [he]
      simp only [Bool.false_eq_true, if_false, if_neg hnz]
      rw [hcount, hlen]

theorem sorted_le_getLast {l : List Rat} (hs : List.Sorted (· ≤ ·) l) :
    ∀ (hne : l ≠ []) (x : Rat), x ∈ l → x ≤ l.getLast hne := by
  induction l with
  | nil => intro hne; exact absurd rfl hne
  | cons a rest ih =>
    intro hne x hx
    cases rest with
    | nil =>
      rcases List.mem_singleton.mp hx with rfl
      simp [List.getLast]
    | cons b bs =>
      rw [List.getLast_cons (List.cons_ne_nil b bs)]
      rcases List.mem_cons.mp hx with rfl | hx2
      · exact List.rel_of_sorted_cons hs _ (List.getLast_mem (List.cons_ne_nil b bs))
      · exact ih hs.of_cons (List.cons_ne_nil b bs) x hx2

theorem mem_aaRanked_filter {lg : Rat → Rat} {models : List AAModel} {cutoff : String}
    {r : AAScoredModel} (h : r ∈ aaRanked lg models cutoff) :
    ∃ a, a ∈ models ∧ aaFilterKeep cutoff a = true
      ∧ r = { model := a, scores := compute_model_scores lg a } := by
  unfold aaRanked at h
  have h1 := (List.perm_insertionSort rankRel _).mem_iff.mp h
  rw [List.mem_filter] at h1
  obtain ⟨h2, _⟩ := h1
  unfold compute_scores at h2
  rw [List.mem_map] at h2
  obtain ⟨a, ha, rfl⟩ := h2
  rw [List.mem_filter] at ha
  exact ⟨a, ha.1, ha.2, rfl⟩

theorem get_aa_models_cases (env : AAEnv) :
    (get_artificial_analysis_stats env).models = []
    ∨ ∃ data, (get_artificial_analysis_stats env).models
        = rank_and_enrich_models env.lg data env.cutoff_date := by
  cases hf : (fetch_models env.api_key env.http env.now).1 with
  | error e =>
    exact Or.inl
      (by simp [get_artificial_analysis_stats, get_artificial_analysis_stats_run, hf])
  | ok triple =>
    obtain ⟨fa, sc, ms⟩ := triple
    exact Or.inr
      ⟨ms, by simp [get_artificial_analysis_stats, get_artificial_analysis_stats_run, hf]⟩

/-! ### Claim theorems -/

/-- C3: every model in the scored list returned by
`get_artificial_analysis_stats` has a release-date string lexicographically at
least the cutoff date, and strictly positive finite blended price, input-token
price, output-token price, median time to first answer token, and median
output tokens per second; in particular a model whose blended price is 0 is
entirely absent from the scored population. -/
theorem C3_scored_population_filter (env : AAEnv) (m : AAEnrichedModel)
    (h : m ∈ (get_artificial_analysis_stats env).models) :
    strLeB env.cutoff_date (m.model.release_date.getD "") = true
    ∧ (∃ q, m.model.pricing.price_1m_blended_3_to_1 = some q ∧ 0 < q)
    ∧ (∃ q, m.model.pricing.price_1m_input_tokens = some q ∧ 0 < q)
    ∧ (∃ q, m.model.pricing.price_1m_output_tokens = some q ∧ 0 < q)
    ∧ (∃ q, m.model.median_time_to_first_answer_token = some q ∧ 0 < q)
    ∧ (∃ q, m.model.median_output_tokens_per_second = some q ∧ 0 < q)
    ∧ m.model.pricing.price_1m_blended_3_to_1 ≠ some 0 := by
  have hfil : aaFilterKeep env.cutoff_date m.model = true := by
    rcases get_aa_models_cases env with hc | ⟨data, hc⟩
    · rw [hc] at h
      exact absurd h (List.not_mem_nil m)
    · rw [hc] at h
      rw [rank_and_enrich_models] at h
      rw [List.mem_map] at h
      obtain ⟨r, hr, rfl⟩ := h
      obtain ⟨a, _, hkeep, rfl⟩ := mem_aaRanked_filter hr
      exact hkeep
  unfold aaFilterKeep at hfil
  simp only [Bool.and_eq_true] at hfil
  obtain ⟨⟨⟨⟨⟨h1, h2⟩, h3⟩, h4⟩, h5⟩, h6⟩ := hfil
  have hb := (is_positive_finite_iff _).mp h2
  refine ⟨h1, hb, (is_positive_finite_iff _).mp h3, (is_positive_finite_iff _).mp h4,
    (is_positive_finite_iff _).mp h5, (is_positive_finite_iff _).mp h6, ?_⟩
  obtain ⟨q, hq, hpos⟩ := hb
  intro contra
  rw [contra] at hq
  exact absurd hpos (by rw [← Option.some.inj hq]; exact lt_irrefl 0)

/-- Witness for C3 at a concrete successful call whose one model passes every
filter. -/
theorem C3_scored_population_filter_witness :
    ((get_artificial_analysis_stats egAAEnv).models.getD 0 default)
        ∈ (get_artificial_analysis_stats egAAEnv).models
    ∧ (strLeB egAAEnv.cutoff_date
          ((((get_artificial_analysis_stats egAAEnv).models.getD 0 default)).model.release_date.getD "")
          = true
        ∧ (∃ q, (((get_artificial_analysis_stats egAAEnv).models.getD 0 default)).model.pricing.price_1m_blended_3_to_1 = some q ∧ 0 < q)
        ∧ (∃ q, (((get_artificial_analysis_stats egAAEnv).models.getD 0 default)).model.pricing.price_1m_input_tokens = some q ∧ 0 < q)
        ∧ (∃ q, (((get_artificial_analysis_stats egAAEnv).models.getD 0 default)).model.pricing.price_1m_output_tokens = some q ∧ 0 < q)
        ∧ (∃ q, (((get_artificial_analysis_stats egAAEnv).models.getD 0 default)).model.median_time_to_first_answer_token = some q ∧ 0 < q)
        ∧ (∃ q, (((get_artificial_analysis_stats egAAEnv).models.getD 0 default)).model.median_output_tokens_per_second = some q ∧ 0 < q)
        ∧ (((get_artificial_analysis_stats egAAEnv).models.getD 0 default)).model.pricing.price_1m_blended_3_to_1 ≠ some 0) :=
  ⟨by with_unfolding_all decide,
   C3_scored_population_filter egAAEnv _ (by with_unfolding_all decide)⟩

/-- C4 (amended): each of the four percentile columns assigned by
`get_artificial_analysis_stats` equals the count of population members whose
column value is non-null and at most the value of the model at hand, divided
by the number of population members with a non-null value in that column (not
by the full population size), times 100; the percentile is null when the value
of the model itself is null.  The population is the returned models list, the
models with a non-null overall score. -/
theorem C4_percentile_denominator (env : AAEnv) (m : AAEnrichedModel)
    (h : m ∈ (get_artificial_analysis_stats env).models) :
    m.percentiles.overall_percentile
      = column_percentile ((get_artificial_analysis_stats env).models.map
          fun r => r.scores.overall_score) m.scores.overall_score
    ∧ m.percentiles.intelligence_percentile
      = column_percentile ((get_artificial_analysis_stats env).models.map
          fun r => r.scores.intelligence_score) m.scores.intelligence_score
    ∧ m.percentiles.speed_percentile
      = column_percentile ((get_artificial_analysis_stats env).models.map
          fun r => r.scores.speed_score) m.scores.speed_score
    ∧ m.percentiles.price_percentile
      = column_percentile ((get_artificial_analysis_stats env).models.map
          fun r => r.scores.price_score) m.scores.price_score := by
  rcases get_aa_models_cases env with hc | ⟨data, hc⟩
  · rw [hc] at h
    exact absurd h (List.not_mem_nil m)
  · rw [hc] at h ⊢
    rw [rank_and_enrich_models] at h ⊢
    rw [List.mem_map] at h
    obtain ⟨r, _, rfl⟩ := h
    refine ⟨?_, ?_, ?_, ?_⟩ <;>
      · rw [List.map_map]
        exact percentile_rank_eq_column _ _

/-- Counterexample to C4 as stated: in a scored population of two models (both
with a non-null overall score), one of which has a null intelligence score,
the intelligence percentile assigned to the top model is 100 — the denominator
is the count of non-null intelligence values (1) — while the formula of the
claim, which divides by the full population size (2), gives 50. -/
theorem C4_counterexample :
    ((get_artificial_analysis_stats egAAEnvC4).models.map fun r => r.scores.overall_score)
      = [some (9/7), some 0]
    ∧ ((get_artificial_analysis_stats egAAEnvC4).models.map fun r => r.scores.intelligence_score)
      = [some 3, none]
    ∧ ((get_artificial_analysis_stats egAAEnvC4).models.getD 0 default).scores.intelligence_score
      = some 3
    ∧ ((get_artificial_analysis_stats egAAEnvC4).models.getD 0 default).percentiles.intelligence_percentile
      = some 100
    ∧ claimed_percentile [some 3, none] 3 = 50
    ∧ ¬ ((100 : Rat) = 50) := by
  refine ⟨?_, ?_, ?_, ?_, ?_, ?_⟩ <;> with_unfolding_all decide

/-- Witness for the amended C4 at the same concrete population. -/
theorem C4_percentile_denominator_witness :
    ((get_artificial_analysis_stats egAAEnvC4).models.getD 0 default)
        ∈ (get_artificial_analysis_stats egAAEnvC4).models
    ∧ (((get_artificial_analysis_stats egAAEnvC4).models.getD 0 default).percentiles.overall_percentile
        = column_percentile ((get_artificial_analysis_stats egAAEnvC4).models.map
            fun r => r.scores.overall_score)
          ((get_artificial_analysis_stats egAAEnvC4).models.getD 0 default).scores.overall_score
      ∧ ((get_artificial_analysis_stats egAAEnvC4).models.getD 0 default).percentiles.intelligence_percentile
        = column_percentile ((get_artificial_analysis_stats egAAEnvC4).models.map
            fun r => r.scores.intelligence_score)
          ((get_artificial_analysis_stats egAAEnvC4).models.getD 0 default).scores.intelligence_score
      ∧ ((get_artificial_analysis_stats egAAEnvC4).models.getD 0 default).percentiles.speed_percentile
        = column_percentile ((get_artificial_analysis_stats egAAEnvC4).models.map
            fun r => r.scores.speed_score)
          ((get_artificial_analysis_stats egAAEnvC4).models.getD 0 default).scores.speed_score
      ∧ ((get_artificial_analysis_stats egAAEnvC4).models.getD 0 default).percentiles.price_percentile
        = column_percentile ((get_artificial_analysis_stats egAAEnvC4).models.map
            fun r => r.scores.price_score)
          ((get_artificial_analysis_stats egAAEnvC4).models.getD 0 default).scores.price_score) :=
  ⟨by with_unfolding_all decide,
   C4_percentile_denominator egAAEnvC4 _ (by with_unfolding_all decide)⟩

/-- C5: the hard vetoes of `_score_candidate`: a parameter-scale token in the
source slug differing from the scale the candidate specifies forces a total
score of 0 regardless of all other terms; a zero common character-level
normalized-string overlap against both the candidate id tail and the candidate
name also forces 0; in particular the slug llama-3.1-70b against a candidate
id ending in llama-3.1-8b scores 0. -/
theorem C5_hard_vetoes :
    (∀ aa_slug model_id model_name s t,
        first_parsed_number (split_tokens aa_slug) parse_b_scale_token = some s →
        candidateBScale model_id model_name = some t →
        s ≠ t →
        score_candidate aa_slug model_id model_name = 0)
    ∧ (∀ aa_slug model_id model_name,
        common_prefix_length (normalize aa_slug) (normalize (split_base_model_id model_id)) = 0 →
        common_prefix_length (normalize aa_slug) (normalize model_name) = 0 →
        score_candidate aa_slug model_id model_name = 0)
    ∧ score_candidate ("llama-3.1-70b") ("meta-llama/llama-3.1-8b") ("Llama 3.1 8B") = 0 := by
  refine ⟨?_, ?_, by with_unfolding_all decide⟩
  · intro aa_slug model_id model_name s t h1 h2 hst
    have hh : has_hard_b_scale_mismatch aa_slug model_id model_name = true := by
      unfold has_hard_b_scale_mismatch
      rw [h1, h2]
      simpa using Ne.symm hst
    unfold score_candidate
    by_cases hp :
      max (common_prefix_length (normalize aa_slug) (normalize (split_base_model_id model_id)))
        (common_prefix_length (normalize aa_slug) (normalize model_name)) = 0
    · simp [hp]
    · simp [hp, hh]
  · intro aa_slug model_id model_name h1 h2
    unfold score_candidate
    simp [h1, h2]

/-- Witness for C5, discharging both veto branches at concrete inputs. -/
theorem C5_hard_vetoes_witness :
    first_parsed_number (split_tokens ("llama-3.1-70b")) parse_b_scale_token = some 70
    ∧ candidateBScale ("x/llama-3.1-8b") ("") = some 8
    ∧ (70 : Nat) ≠ 8
    ∧ score_candidate ("llama-3.1-70b") ("x/llama-3.1-8b") ("") = 0
    ∧ common_prefix_length (normalize ("zzz")) (normalize (split_base_model_id ("a/qqq"))) = 0
    ∧ common_prefix_length (normalize ("zzz")) (normalize ("www")) = 0
    ∧ score_candidate ("zzz") ("a/qqq") ("www") = 0 :=
  ⟨by with_unfolding_all decide, by with_unfolding_all decide, by decide,
   C5_hard_vetoes.1 ("llama-3.1-70b") ("x/llama-3.1-8b") ("") 70 8
     (by with_unfolding_all decide) (by with_unfolding_all decide) (by decide),
   by with_unfolding_all decide, by with_unfolding_all decide,
   C5_hard_vetoes.2.1 ("zzz") ("a/qqq") ("www")
     (by with_unfolding_all decide) (by with_unfolding_all decide)⟩

/-- Counterexample to C9 as stated: a cache that exists, parses as a dict with
a models list and a numeric `fetched_at` of 100.5, and whose age (100 seconds
after truncation) is well within 24 hours, is served — but the returned
payload carries the truncated timestamp 100, not the cached value 100.5, so
the cached payload is not returned unchanged. -/
theorem C9_counterexample :
    egSelEnvC9.cache_file
      = some { fetched_at_epoch_seconds := some (201/2), models := some [] }
    ∧ is_fresh_cache egSelEnvC9.now (some (201/2)) = true
    ∧ (get_model_stats_selected egSelEnvC9).1.fetched_at_epoch_seconds = some 100
    ∧ ((get_model_stats_selected egSelEnvC9).1.fetched_at_epoch_seconds.map
          fun z => (z : Rat)) ≠ some ((201 : Rat)/2) := by
  refine ⟨?_, ?_, ?_, ?_⟩ <;> with_unfolding_all decide

/-- C9 (amended): in list mode, a cache that exists, is well-formed and whose
truncated `fetched_at` age is between 0 and 24 hours is served without
recomputation or a cache write — the returned payload is the cached models
with the timestamp truncated to an integer (identical to the cached payload
whenever `fetched_at` is integral, as every cache the code itself writes is);
otherwise (missing, malformed, or stale cache) the full pipeline runs, the
fresh payload is returned, and a best-effort cache write of it is attempted
(write failures are swallowed). -/
theorem C9_selection_cache (env : SelEnv)
    (hid : env.options.bind SelOptions.id = none) :
    (∀ doc ms q, env.cache_file = some doc → doc.models = some ms →
        doc.fetched_at_epoch_seconds = some q →
        0 ≤ env.now - pyTrunc q → env.now - pyTrunc q ≤ 60 * 60 * 24 →
        get_model_stats_selected env
          = ({ fetched_at_epoch_seconds := some (pyTrunc q), models := ms }, none))
    ∧ (load_model_stats_selected_from_cache env.now env.cache_file = none →
        get_model_stats_selected env
          = ({ fetched_at_epoch_seconds := some env.now
               models := env.union_payload.models.map map_union_model_to_selected },
             some { fetched_at_epoch_seconds := some env.now
                    models := env.union_payload.models.map map_union_model_to_selected })) := by
  constructor
  · intro doc ms q hdoc hms hq h0 h1
    have hf : is_fresh_cache env.now (some q) = true := by
      unfold is_fresh_cache CACHE_TTL_SECONDS
      simp only [Bool.and_eq_true, decide_eq_true_eq]
      omega
    have hload : load_model_stats_selected_from_cache env.now env.cache_file
        = some { fetched_at_epoch_seconds := some (pyTrunc q), models := ms } := by
      rw [hdoc]
      simp [load_model_stats_selected_from_cache, hms, hq, hf]
    simp [get_model_stats_selected, hid, hload]
  · intro hnone
    simp [get_model_stats_selected, hid, hnone]

/-- Witness for the amended C9: the fresh branch at the concrete non-integral
cache, the recomputation branch at a missing cache. -/
theorem C9_selection_cache_witness :
    egSelEnvC9.options.bind SelOptions.id = none
    ∧ get_model_stats_selected egSelEnvC9
        = ({ fetched_at_epoch_seconds := some (pyTrunc (201/2)), models := [] }, none)
    ∧ load_model_stats_selected_from_cache egSelEnvFail.now egSelEnvFail.cache_file = none
    ∧ get_model_stats_selected egSelEnvFail
        = ({ fetched_at_epoch_seconds := some 1000
             models := egSelEnvFail.union_payload.models.map map_union_model_to_selected },
           some { fetched_at_epoch_seconds := some 1000
                  models := egSelEnvFail.union_payload.models.map map_union_model_to_selected }) :=
  ⟨rfl,
   (C9_selection_cache egSelEnvC9 rfl).1
     { fetched_at_epoch_seconds := some (201/2), models := some [] } [] (201/2)
     rfl rfl rfl (by with_unfolding_all decide) (by with_unfolding_all decide),
   rfl,
   (C9_selection_cache egSelEnvFail rfl).2 rfl⟩

/-- C10: a selection cache whose truncated `fetched_at` lies strictly in the
future (negative age) is treated as stale: the cached payload is not returned
and the full pipeline recomputes; freshness holds exactly when
0 ≤ now - fetched_at ≤ 86400 (with `fetched_at` truncated to an integer). -/
theorem C10_future_cache_stale :
    (∀ (env : SelEnv) doc ms q,
        env.options.bind SelOptions.id = none →
        env.cache_file = some doc → doc.models = some ms →
        doc.fetched_at_epoch_seconds = some q →
        env.now < pyTrunc q →
        load_model_stats_selected_from_cache env.now env.cache_file = none
        ∧ get_model_stats_selected env
            = ({ fetched_at_epoch_seconds := some env.now
                 models := env.union_payload.models.map map_union_model_to_selected },
               some { fetched_at_epoch_seconds := some env.now
                      models := env.union_payload.models.map map_union_model_to_selected }))
    ∧ ∀ (now : Int) (q : Rat),
        is_fresh_cache now (some q) = true
          ↔ (0 ≤ now - pyTrunc q ∧ now - pyTrunc q ≤ 60 * 60 * 24) := by
  constructor
  · intro env doc ms q hid hdoc hms hq hfuture
    have hneg : ¬ (0 ≤ env.now - pyTrunc q) := by omega
    have hf : is_fresh_cache env.now (some q) = false := by
      show (decide (0 ≤ env.now - pyTrunc q)
          && decide (env.now - pyTrunc q ≤ CACHE_TTL_SECONDS)) = false
      rw [decide_eq_false hneg, Bool.false_and]
    have hload : load_model_stats_selected_from_cache env.now env.cache_file = none := by
      rw [hdoc]
      simp [load_model_stats_selected_from_cache, hms, hq, hf]
    exact ⟨hload, by simp [get_model_stats_selected, hid, hload]⟩
  · intro now q
    unfold is_fresh_cache CACHE_TTL_SECONDS
    simp

/-- Witness for C10 at a cache timestamped 5000 read at time 1000. -/
theorem C10_future_cache_stale_witness :
    (load_model_stats_selected_from_cache egSelEnvC10.now egSelEnvC10.cache_file = none
      ∧ get_model_stats_selected egSelEnvC10
          = ({ fetched_at_epoch_seconds := some 1000
               models := egSelEnvC10.union_payload.models.map map_union_model_to_selected },
             some { fetched_at_epoch_seconds := some 1000
                    models := egSelEnvC10.union_payload.models.map map_union_model_to_selected }))
    ∧ (is_fresh_cache 1000 (some 5000) = true
        ↔ (0 ≤ (1000 : Int) - pyTrunc 5000 ∧ (1000 : Int) - pyTrunc 5000 ≤ 60 * 60 * 24)) :=
  ⟨C10_future_cache_stale.1 egSelEnvC10
     { fetched_at_epoch_seconds := some 5000, models := some [] } [] 5000
     rfl rfl rfl rfl (by with_unfolding_all decide),
   C10_future_cache_stale.2 1000 5000⟩

set_option maxRecDepth 8000 in
/-- Counterexample to C1 as stated: when the sources fail with a transport
error and no usable cache exists, `get_model_stats_selected` returns an empty
models list but with the current epoch second as its timestamp — not the
null-timestamp payload the claim asserts for every internal error. -/
theorem C1_counterexample :
    (get_model_stats_selected egSelEnvFail).1
      = { fetched_at_epoch_seconds := some 1000, models := [] }
    ∧ (get_model_stats_selected egSelEnvFail).1.fetched_at_epoch_seconds ≠ none := by
  constructor <;> with_unfolding_all decide

/-- C1 (amended): no entry point raises (every embedded entry point is a total
function).  The two source entry points degrade to the null-timestamp empty
payload on any transport, parse or validation error and on a missing API key;
the mapping and union entry points, whose own bodies cannot fail, return the
null-timestamp zero-count empty payload when the sources have so degraded;
`get_model_stats_selected`, however, returns an empty models list with the
current (non-null) timestamp when the sources fail, because those errors are
caught at the source boundary — only an error raised inside its own body
would produce its null-timestamp payload. -/
theorem C1_failure_safety :
    (∀ (env : AAEnv) e, env.http = Except.error e →
        get_artificial_analysis_stats env
          = { fetched_at_epoch_seconds := none, status_code := none, models := [] })
    ∧ (∀ env : AAEnv, truthyStr env.api_key = false →
        get_artificial_analysis_stats env
          = { fetched_at_epoch_seconds := none, status_code := none, models := [] })
    ∧ (∀ (env : MDEnv) e, env.http = Except.error e →
        get_models_dev_stats env
          = { fetched_at_epoch_seconds := none, status_code := none, models := [] })
    ∧ (get_match_models_union
          { fetched_at_epoch_seconds := none, status_code := none, models := [] }
          { fetched_at_epoch_seconds := none, status_code := none, models := [] }
        = { artificial_analysis_fetched_at_epoch_seconds := none
            models_dev_fetched_at_epoch_seconds := none
            total_artificial_analysis_models := 0
            total_models_dev_models := 0
            void_mode := "maxmin_half"
            void_threshold := none
            voided_count := 0
            total_union_models := 0
            models := [] })
    ∧ (∀ options,
        get_match_model_mapping options
            { fetched_at_epoch_seconds := none, status_code := none, models := [] }
            { fetched_at_epoch_seconds := none, status_code := none, models := [] }
          = { artificial_analysis_fetched_at_epoch_seconds := none
              models_dev_fetched_at_epoch_seconds := none
              total_artificial_analysis_models := 0
              total_models_dev_models := 0
              max_candidates := effective_max_candidates options
              void_mode := "maxmin_half"
              void_threshold := none
              voided_count := 0
              models := [] })
    ∧ (∀ env : SelEnv, env.options.bind SelOptions.id = none →
        load_model_stats_selected_from_cache env.now env.cache_file = none →
        env.union_payload.models = [] →
        get_model_stats_selected env
          = ({ fetched_at_epoch_seconds := some env.now, models := [] },
             some { fetched_at_epoch_seconds := some env.now, models := [] })) := by
  refine ⟨?_, ?_, ?_, by with_unfolding_all decide, ?_, ?_⟩
  · intro env e he
    by_cases hk : truthyStr env.api_key = true
    · simp [get_artificial_analysis_stats, get_artificial_analysis_stats_run,
        fetch_models, hk, he]
    · simp only [Bool.not_eq_true] at hk
      simp [get_artificial_analysis_stats, get_artificial_analysis_stats_run,
        fetch_models, hk]
  · intro env hk
    simp [get_artificial_analysis_stats, get_artificial_analysis_stats_run,
      fetch_models, hk]
  · intro env e he
    simp [get_models_dev_stats, get_models_dev_stats_run, he]
  · intro options
    rfl
  · intro env hid hload hunion
    simp [get_model_stats_selected, hid, hload, hunion]

/-- Witness for the amended C1 at concrete failing environments. -/
theorem C1_failure_safety_witness :
    get_artificial_analysis_stats
        { api_key := some "key", http := Except.error PyErr.transport
          now := 5, cutoff_date := "2025-01-01", lg := egLg }
      = { fetched_at_epoch_seconds := none, status_code := none, models := [] }
    ∧ get_artificial_analysis_stats
        { api_key := none, http := Except.ok { status_code := 200, data := [] }
          now := 5, cutoff_date := "2025-01-01", lg := egLg }
      = { fetched_at_epoch_seconds := none, status_code := none, models := [] }
    ∧ get_models_dev_stats
        { http := Except.error PyErr.parse, now := 5, cutoff_date := "2025-01-01" }
      = { fetched_at_epoch_seconds := none, status_code := none, models := [] }
    ∧ get_match_model_mapping none
        { fetched_at_epoch_seconds := none, status_code := none, models := [] }
        { fetched_at_epoch_seconds := none, status_code := none, models := [] }
      = { artificial_analysis_fetched_at_epoch_seconds := none
          models_dev_fetched_at_epoch_seconds := none
          total_artificial_analysis_models := 0
          total_models_dev_models := 0
          max_candidates := effective_max_candidates none
          void_mode := "maxmin_half"
          void_threshold := none
          voided_count := 0
          models := [] }
    ∧ get_model_stats_selected egSelEnvFail
      = ({ fetched_at_epoch_seconds := some 1000, models := [] },
         some { fetched_at_epoch_seconds := some 1000, models := [] }) :=
  ⟨C1_failure_safety.1 _ PyErr.transport rfl,
   C1_failure_safety.2.1 _ rfl,
   C1_failure_safety.2.2.1 _ PyErr.parse rfl,
   C1_failure_safety.2.2.2.2.1 none,
   C1_failure_safety.2.2.2.2.2 egSelEnvFail rfl rfl (by with_unfolding_all decide)⟩

/-- Counterexample to C2 as stated: a call of `get_artificial_analysis_stats`
made while a raw cache entry of the documented shape is 0 seconds old (far
younger than the default 12-hour TTL) still performs one HTTP request — the
function reads no cache at all, so the call is not served from the cache. -/
theorem C2_counterexample :
    egAAEnv.now - egRawCacheFresh.fetched_at_epoch_seconds = 0
    ∧ (0 : Int) < DEFAULT_CACHE_TTL_SECONDS
    ∧ (get_artificial_analysis_stats_run egAAEnv).2 = 1
    ∧ (get_models_dev_stats_run egMDEnv).2 = 1
    ∧ (1 : Nat) ≠ 0 := by
  refine ⟨?_, ?_, ?_, ?_, ?_⟩ <;> with_unfolding_all decide

/-- C2 (amended): `get_artificial_analysis_stats` and `get_models_dev_stats`
maintain no cache: every call attempts exactly one HTTP request (zero only
when the Artificial Analysis key is missing, which aborts before the request).
The 12-hour TTL env-overridable raw cache of shape fetched_at, status_code,
models[] exists only in the separate client `get_aa_stats`
(clients/aa_stats.py), whose cache resolution serves a loaded entry without
any request while its age is at most the TTL and refetches once it is
older. -/
theorem C2_raw_source_fetch_behavior :
    (∀ env : AAEnv, (get_artificial_analysis_stats_run env).2
        = if truthyStr env.api_key then 1 else 0)
    ∧ (∀ env : MDEnv, (get_models_dev_stats_run env).2 = 1)
    ∧ (∀ api cache_entry ttl now http,
        now - RawCacheEntry.fetched_at_epoch_seconds cache_entry ≤ ttl →
        aa_stats_resolve_cache false api (some cache_entry) ttl now http
          = (Except.ok cache_entry, 0))
    ∧ (∀ api cache_entry ttl now status_code models,
        ttl < now - RawCacheEntry.fetched_at_epoch_seconds cache_entry →
        truthyStr api = true →
        aa_stats_resolve_cache false api (some cache_entry) ttl now
            (Except.ok (status_code, models))
          = (Except.ok
              { fetched_at_epoch_seconds := now
                status_code := some status_code
                models := models }, 1)) := by
  refine ⟨?_, ?_, ?_, ?_⟩
  · intro env
    by_cases hk : truthyStr env.api_key = true
    · cases he : env.http with
      | error e =>
        simp [get_artificial_analysis_stats_run, fetch_models, hk, he]
      | ok ok =>
        simp [get_artificial_analysis_stats_run, fetch_models, hk, he]
    · simp only [Bool.not_eq_true] at hk
      simp [get_artificial_analysis_stats_run, fetch_models, hk]
  · intro env
    cases he : env.http with
    | error e => simp [get_models_dev_stats_run, he]
    | ok p =>
      obtain ⟨sc, body⟩ := p
      simp [get_models_dev_stats_run, he]
  · intro api cache_entry ttl now http hfresh
    simp [aa_stats_resolve_cache, not_lt.mpr hfresh]
  · intro api cache_entry ttl now status_code models hstale hk
    simp [aa_stats_resolve_cache, hstale, fetch_and_cache_models, hk]

/-- Witness for the amended C2: the concrete fresh call pair, and the client
cache resolution serving a 0-second-old entry without a request and
refetching a stale one. -/
theorem C2_raw_source_fetch_behavior_witness :
    (get_artificial_analysis_stats_run egAAEnv).2
        = (if truthyStr egAAEnv.api_key then 1 else 0)
    ∧ (get_models_dev_stats_run egMDEnv).2 = 1
    ∧ egAAEnv.now - RawCacheEntry.fetched_at_epoch_seconds egRawCacheFresh
        ≤ DEFAULT_CACHE_TTL_SECONDS
    ∧ aa_stats_resolve_cache false (some "key") (some egRawCacheFresh)
          DEFAULT_CACHE_TTL_SECONDS 1700000000 (Except.ok (200, []))
        = (Except.ok egRawCacheFresh, 0)
    ∧ DEFAULT_CACHE_TTL_SECONDS
        < 1700100000 - RawCacheEntry.fetched_at_epoch_seconds egRawCacheFresh
    ∧ truthyStr (some "key") = true
    ∧ aa_stats_resolve_cache false (some "key") (some egRawCacheFresh)
          DEFAULT_CACHE_TTL_SECONDS 1700100000 (Except.ok (200, [egAAMini]))
        = (Except.ok
            { fetched_at_epoch_seconds := 1700100000
              status_code := some 200
              models := [egAAMini] }, 1) :=
  ⟨C2_raw_source_fetch_behavior.1 egAAEnv,
   C2_raw_source_fetch_behavior.2.1 egMDEnv,
   by with_unfolding_all decide,
   C2_raw_source_fetch_behavior.2.2.1 (some "key") egRawCacheFresh
     DEFAULT_CACHE_TTL_SECONDS 1700000000 (Except.ok (200, []))
     (by with_unfolding_all decide),
   by with_unfolding_all decide,
   by decide,
   C2_raw_source_fetch_behavior.2.2.2 (some "key") egRawCacheFresh
     DEFAULT_CACHE_TTL_SECONDS 1700100000 200 [egAAMini]
     (by with_unfolding_all decide) (by decide)⟩

/-- C7: in the outlier-voiding pass over the mapping rows, when no row has a
best match the threshold is null and nothing changes; otherwise, writing mn
and mx for the minimum and maximum of the best-match scores, the threshold is
mn + (mx - mn) * 35/100, the reported voided count is the number of rows whose
best-match score is strictly below it, and exactly those rows have best_match
set to null and candidates cleared while every other row is unchanged. -/
theorem C7_void_pass (models : List MatchMappedModel) :
    (models.filterMap bestScore = [] →
        apply_maxmin_half_void models = ((none, 0), models))
    ∧ ∀ mn mx,
        mn ∈ models.filterMap bestScore →
        (∀ b ∈ models.filterMap bestScore, mn ≤ b) →
        mx ∈ models.filterMap bestScore →
        (∀ b ∈ models.filterMap bestScore, b ≤ mx) →
        (apply_maxmin_half_void models).1.1 = some (mn + (mx - mn) * (35/100))
        ∧ (apply_maxmin_half_void models).1.2
            = models.countP (fun m =>
                match bestScore m with
                | some q => decide (q < mn + (mx - mn) * (35/100))
                | none => false)
        ∧ (apply_maxmin_half_void models).2
            = models.map (fun m =>
                match bestScore m with
                | some q =>
                  if q < mn + (mx - mn) * (35/100) then
                    { m with best_match := none, candidates := [] }
                  else m
                | none => m) := by
  constructor
  · intro hempty
    simp [apply_maxmin_half_void, hempty]
  · intro mn mx hmn hmnle hmx hmxle
    have hperm := List.perm_insertionSort (· ≤ · : Rat → Rat → Prop)
      (models.filterMap bestScore)
    have hsorted := List.sorted_insertionSort (· ≤ · : Rat → Rat → Prop)
      (models.filterMap bestScore)
    cases hs : List.insertionSort (· ≤ · : Rat → Rat → Prop)
        (models.filterMap bestScore) with
    | nil =>
      rw [hs] at hperm
      exact absurd (hperm.symm.mem_iff.mp hmn) (List.not_mem_nil mn)
    | cons s rest =>
      rw [hs] at hperm hsorted
      have hmem_s : s ∈ models.filterMap bestScore :=
        hperm.mem_iff.mp (List.mem_cons_self s rest)
      have hs_eq_mn : s = mn := by
        have h1 : mn ≤ s := hmnle s hmem_s
        have h2 : s ≤ mn := by
          rcases List.mem_cons.mp (hperm.mem_iff.mpr hmn) with heq | hmem
          · exact le_of_eq heq.symm
          · exact List.rel_of_sorted_cons hsorted mn hmem
        exact le_antisymm h2 h1
      have hlast_eq_mx : (s :: rest).getLast (List.cons_ne_nil s rest) = mx := by
        have h1 : (s :: rest).getLast (List.cons_ne_nil s rest) ≤ mx :=
          hmxle _ (hperm.mem_iff.mp (List.getLast_mem (List.cons_ne_nil s rest)))
        have h2 : mx ≤ (s :: rest).getLast (List.cons_ne_nil s rest) :=
          sorted_le_getLast hsorted (List.cons_ne_nil s rest) mx
            (hperm.mem_iff.mpr hmx)
        exact le_antisymm h1 h2
      subst hs_eq_mn
      refine ⟨?_, ?_, ?_⟩ <;>
        · simp only [apply_maxmin_half_void, hs, bestScore]
          simp only [hlast_eq_mx]

/-- Witness for C7 on two rows with best-match scores 1 and 11: the threshold
is 9/2, the low row is voided, the high row is untouched. -/
theorem C7_void_pass_witness :
    (1 : Rat) ∈ egVoidRows.filterMap bestScore
    ∧ (∀ b ∈ egVoidRows.filterMap bestScore, (1 : Rat) ≤ b)
    ∧ (11 : Rat) ∈ egVoidRows.filterMap bestScore
    ∧ (∀ b ∈ egVoidRows.filterMap bestScore, b ≤ (11 : Rat))
    ∧ ((apply_maxmin_half_void egVoidRows).1.1 = some (1 + (11 - 1) * (35/100))
      ∧ (apply_maxmin_half_void egVoidRows).1.2
          = egVoidRows.countP (fun m =>
              match bestScore m with
              | some q => decide (q < 1 + (11 - 1) * (35/100))
              | none => false)
      ∧ (apply_maxmin_half_void egVoidRows).2
          = egVoidRows.map (fun m =>
              match bestScore m with
              | some q =>
                if q < 1 + (11 - 1) * (35/100) then
                  { m with best_match := none, candidates := [] }
                else m
              | none => m)) :=
  ⟨by with_unfolding_all decide, by with_unfolding_all decide,
   by with_unfolding_all decide, by with_unfolding_all decide,
   (C7_void_pass egVoidRows).2 1 11
     (by with_unfolding_all decide) (by with_unfolding_all decide)
     (by with_unfolding_all decide) (by with_unfolding_all decide)⟩

/-- The union-row voiding pass preserves the number of rows. -/
theorem apply_void_union_length (rows : List MatchUnionRow) :
    (apply_maxmin_half_void_union rows).2.length = rows.length := by
  cases hs : List.insertionSort ((· ≤ ·) : Rat → Rat → Prop)
      (rows.filterMap bestScoreU) with
  | nil => simp [apply_maxmin_half_void_union, hs]
  | cons s rest => simp [apply_maxmin_half_void_union, hs]

/-- Every row surviving the union-row voiding pass is an input row, possibly
with its best match cleared (its union field is untouched either way). -/
theorem apply_void_union_elems {rows : List MatchUnionRow} {row : MatchUnionRow}
    (h : row ∈ (apply_maxmin_half_void_union rows).2) :
    ∃ r ∈ rows, row = r ∨ row = { r with best_match := none } := by
  cases hs : List.insertionSort ((· ≤ ·) : Rat → Rat → Prop)
      (rows.filterMap bestScoreU) with
  | nil =>
    simp only [apply_maxmin_half_void_union, hs] at h
    exact ⟨row, h, Or.inl rfl⟩
  | cons s rest =>
    simp only [apply_maxmin_half_void_union, hs] at h
    rw [List.mem_map] at h
    obtain ⟨r, hr, heq⟩ := h
    cases hb : r.best_match with
    | none =>
      simp only [bestScoreU, hb, Option.map_none'] at heq
      exact ⟨r, hr, Or.inl heq.symm⟩
    | some c =>
      simp only [bestScoreU, hb, Option.map_some'] at heq
      by_cases hlt : c.score
          < s + ((s :: rest).getLast (List.cons_ne_nil s rest) - s) * (35/100)
      · rw [if_pos hlt] at heq
        exact ⟨r, hr, Or.inr heq.symm⟩
      · rw [if_neg hlt] at heq
        exact ⟨r, hr, Or.inl heq.symm⟩

/-- The name of a built union row is the Python `or` of the matched models.dev
display name and the Artificial Analysis name. -/
theorem union_row_name {aaModels : List AAEnrichedModel} {scopedRows : List MDRow}
    {row : MatchUnionRow} (h : row ∈ aaModels.map fun aa => build_union_row aa scopedRows) :
    row.union.name = pyOrStr (row.union.models_dev_model.bind MDModel.name)
      row.union.artificial_analysis_model.model.name := by
  rw [List.mem_map] at h
  obtain ⟨aa, _, rfl⟩ := h
  rfl

theorem pyOrStr_spec (a b : Option String) :
    (truthyStr a = true → pyOrStr a b = a)
    ∧ (truthyStr a = false → truthyStr b = true → pyOrStr a b = b)
    ∧ (truthyStr a = false → truthyStr b = false → pyOrStr a b = none) :=
  ⟨fun h => by simp [pyOrStr, h],
   fun h1 h2 => by simp [pyOrStr, h1, h2],
   fun h1 h2 => by simp [pyOrStr, h1, h2]⟩

/-- C8: in every `get_match_models_union` payload, `total_union_models` is the
length of the models list and at most `total_artificial_analysis_models`; the
union rows are exactly the unions of the post-voiding rows with a non-null
best match, one per such source model; and each union row takes its name from
the matched models.dev display name when that is present (a non-empty string),
else from the source model name, else null. -/
theorem C8_union_invariants (aaP : AAPayload) (mdP : MDPayload) :
    (get_match_models_union aaP mdP).total_union_models
        = (get_match_models_union aaP mdP).models.length
    ∧ (get_match_models_union aaP mdP).models.length
        ≤ (get_match_models_union aaP mdP).total_artificial_analysis_models
    ∧ (get_match_models_union aaP mdP).models
        = ((apply_maxmin_half_void_union (aaP.models.map
              fun aa => build_union_row aa (scope_to_openrouter_models mdP.models))).2.filter
            fun row => row.best_match.isSome).map MatchUnionRow.union
    ∧ (get_match_models_union aaP mdP).models.length
        = (apply_maxmin_half_void_union (aaP.models.map
              fun aa => build_union_row aa (scope_to_openrouter_models mdP.models))).2.countP
            (fun row => row.best_match.isSome)
    ∧ (∀ u ∈ (get_match_models_union aaP mdP).models,
        ∃ row ∈ (apply_maxmin_half_void_union (aaP.models.map
              fun aa => build_union_row aa (scope_to_openrouter_models mdP.models))).2,
          row.best_match.isSome = true ∧ row.union = u)
    ∧ (∀ u ∈ (get_match_models_union aaP mdP).models,
        (truthyStr (u.models_dev_model.bind MDModel.name) = true →
            u.name = u.models_dev_model.bind MDModel.name)
        ∧ (truthyStr (u.models_dev_model.bind MDModel.name) = false →
            truthyStr u.artificial_analysis_model.model.name = true →
            u.name = u.artificial_analysis_model.model.name)
        ∧ (truthyStr (u.models_dev_model.bind MDModel.name) = false →
            truthyStr u.artificial_analysis_model.model.name = false →
            u.name = none)) := by
  have hname : ∀ u ∈ (get_match_models_union aaP mdP).models,
      u.name = pyOrStr (u.models_dev_model.bind MDModel.name)
        u.artificial_analysis_model.model.name := by
    intro u hu
    have hu2 : u ∈ ((apply_maxmin_half_void_union (aaP.models.map
        fun aa => build_union_row aa (scope_to_openrouter_models mdP.models))).2.filter
          fun row => row.best_match.isSome).map MatchUnionRow.union := hu
    rw [List.mem_map] at hu2
    obtain ⟨row, hrow, rfl⟩ := hu2
    rw [List.mem_filter] at hrow
    obtain ⟨r, hr, hcase⟩ := apply_void_union_elems hrow.1
    have hru : row.union = r.union := by
      rcases hcase with rfl | rfl
      · rfl
      · rfl
    rw [hru]
    exact union_row_name hr
  refine ⟨rfl, ?_, rfl, ?_, ?_, ?_⟩
  · show (((apply_maxmin_half_void_union _).2.filter _).map MatchUnionRow.union).length
        ≤ aaP.models.length
    rw [List.length_map]
    exact le_trans (List.length_filter_le _ _)
      (le_of_eq (by rw [apply_void_union_length, List.length_map]))
  · show (((apply_maxmin_half_void_union _).2.filter _).map MatchUnionRow.union).length = _
    rw [List.length_map, List.countP_eq_length_filter]
  · intro u hu
    have hu2 : u ∈ ((apply_maxmin_half_void_union (aaP.models.map
        fun aa => build_union_row aa (scope_to_openrouter_models mdP.models))).2.filter
          fun row => row.best_match.isSome).map MatchUnionRow.union := hu
    rw [List.mem_map] at hu2
    obtain ⟨row, hrow, rfl⟩ := hu2
    rw [List.mem_filter] at hrow
    exact ⟨row, hrow.1, hrow.2, rfl⟩
  · intro u hu
    have h := hname u hu
    refine ⟨fun h1 => ?_, fun h1 h2 => ?_, fun h1 h2 => ?_⟩
    · rw [h]; exact (pyOrStr_spec _ _).1 h1
    · rw [h]; exact (pyOrStr_spec _ _).2.1 h1 h2
    · rw [h]; exact (pyOrStr_spec _ _).2.2 h1 h2

/-- Witness for C8 on the end-to-end example pair: the single union row is the
gpt-5-mini match and its name is the models.dev display name. -/
theorem C8_union_invariants_witness :
    ((get_match_models_union (get_artificial_analysis_stats egAAEnv)
        (get_models_dev_stats egMDEnv)).models.getD 0 default)
      ∈ (get_match_models_union (get_artificial_analysis_stats egAAEnv)
        (get_models_dev_stats egMDEnv)).models
    ∧ ((get_match_models_union (get_artificial_analysis_stats egAAEnv)
        (get_models_dev_stats egMDEnv)).models.getD 0 default).name = some "GPT-5 Mini"
    ∧ (∃ row ∈ (apply_maxmin_half_void_union
          ((get_artificial_analysis_stats egAAEnv).models.map
            fun aa => build_union_row aa
              (scope_to_openrouter_models (get_models_dev_stats egMDEnv).models))).2,
        row.best_match.isSome = true
        ∧ row.union = ((get_match_models_union (get_artificial_analysis_stats egAAEnv)
            (get_models_dev_stats egMDEnv)).models.getD 0 default))
    ∧ (truthyStr (((get_match_models_union (get_artificial_analysis_stats egAAEnv)
              (get_models_dev_stats egMDEnv)).models.getD 0 default).models_dev_model.bind
            MDModel.name) = true →
        ((get_match_models_union (get_artificial_analysis_stats egAAEnv)
            (get_models_dev_stats egMDEnv)).models.getD 0 default).name
          = ((get_match_models_union (get_artificial_analysis_stats egAAEnv)
              (get_models_dev_stats egMDEnv)).models.getD 0 default).models_dev_model.bind
              MDModel.name) :=
  ⟨by with_unfolding_all decide,
   by with_unfolding_all decide,
   (C8_union_invariants (get_artificial_analysis_stats egAAEnv)
       (get_models_dev_stats egMDEnv)).2.2.2.2.1 _ (by with_unfolding_all decide),
   ((C8_union_invariants (get_artificial_analysis_stats egAAEnv)
       (get_models_dev_stats egMDEnv)).2.2.2.2.2 _ (by with_unfolding_all decide)).1⟩

/-- Collected candidate lists are sorted by the deterministic candidate
order. -/
theorem collect_candidates_sorted (aa : AAEnrichedModel) (scopedRows : List MDRow) :
    List.Pairwise candRel (collect_candidates_for_aa_model aa scopedRows) := by
  unfold collect_candidates_for_aa_model
  by_cases h : (pyOrStr aa.model.slug none).getD "" = ""
  · simp [h]
  · simp only [h, if_false]
    exact List.sorted_insertionSort candRel _

set_option maxHeartbeats 1600000 in
/-- Every collected candidate has a strictly positive score. -/
theorem collect_candidates_pos {aa : AAEnrichedModel} {scopedRows : List MDRow}
    {c : MatchCandidate} (hc : c ∈ collect_candidates_for_aa_model aa scopedRows) :
    0 < c.score := by
  unfold collect_candidates_for_aa_model at hc
  by_cases h : (pyOrStr aa.model.slug none).getD "" = ""
  · simp [h] at hc
  · simp only [h, if_false] at hc
    have hmem := (List.perm_insertionSort candRel _).mem_iff.mp hc
    rw [List.mem_filterMap] at hmem
    obtain ⟨row, _, hrow⟩ := hmem
    simp only [candidate_for_row] at hrow
    split at hrow
    · exact absurd hrow (by simp)
    · split at hrow
      · exact absurd hrow (by simp)
      · rcases Option.some.inj hrow with rfl
        next h2 =>
          exact lt_of_not_le h2

theorem pySliceTo_nonneg {α : Type} {n : Int} (hn : 0 ≤ n) (l : List α) :
    pySliceTo n l = l.take n.toNat := by
  simp [pySliceTo, hn]

theorem pySliceTo_length_le {α : Type} {n : Int} (hn : 0 ≤ n) (l : List α) :
    ((pySliceTo n l).length : Int) ≤ n := by
  rw [pySliceTo_nonneg hn]
  have htake : (List.take n.toNat l).length ≤ n.toNat := by
    rw [List.length_take]
    exact min_le_left _ _
  calc ((List.take n.toNat l).length : Int) ≤ (n.toNat : Int) := by exact_mod_cast htake
    _ = n := Int.toNat_of_nonneg hn

/-- Every row surviving the mapping voiding pass is an input row, possibly
with best match nulled and candidates cleared. -/
theorem apply_void_elems {ms : List MatchMappedModel} {m : MatchMappedModel}
    (h : m ∈ (apply_maxmin_half_void ms).2) :
    ∃ r ∈ ms, m = r ∨ m = { r with best_match := none, candidates := [] } := by
  cases hs : List.insertionSort ((· ≤ ·) : Rat → Rat → Prop) (ms.filterMap bestScore) with
  | nil =>
    simp only [apply_maxmin_half_void, hs] at h
    exact ⟨m, h, Or.inl rfl⟩
  | cons s rest =>
    simp only [apply_maxmin_half_void, hs] at h
    rw [List.mem_map] at h
    obtain ⟨r, hr, heq⟩ := h
    cases hb : r.best_match with
    | none =>
      simp only [bestScore, hb, Option.map_none'] at heq
      exact ⟨r, hr, Or.inl heq.symm⟩
    | some c =>
      simp only [bestScore, hb, Option.map_some'] at heq
      by_cases hlt : c.score
          < s + ((s :: rest).getLast (List.cons_ne_nil s rest) - s) * (35/100)
      · rw [if_pos hlt] at heq
        exact ⟨r, hr, Or.inr heq.symm⟩
      · rw [if_neg hlt] at heq
        exact ⟨r, hr, Or.inl heq.symm⟩

/-- Counterexample to C6 as stated: a call with `max_candidates = -1` (a
type-valid integer) produces a payload whose reported `max_candidates` is -1,
and the one mapping entry has a candidates list (of length 0, after the
Python negative slice) that is not at most `max_candidates`. -/
theorem C6_counterexample :
    (get_match_model_mapping (some { max_candidates := some (-1) })
        (get_artificial_analysis_stats egAAEnv)
        { fetched_at_epoch_seconds := some 0, status_code := some 200, models := [] }).max_candidates
      = -1
    ∧ (get_match_model_mapping (some { max_candidates := some (-1) })
        (get_artificial_analysis_stats egAAEnv)
        { fetched_at_epoch_seconds := some 0, status_code := some 200, models := [] }).models.length
      = 1
    ∧ ¬ (∀ m ∈ (get_match_model_mapping (some { max_candidates := some (-1) })
          (get_artificial_analysis_stats egAAEnv)
          { fetched_at_epoch_seconds := some 0, status_code := some 200, models := [] }).models,
        (m.candidates.length : Int)
          ≤ (get_match_model_mapping (some { max_candidates := some (-1) })
              (get_artificial_analysis_stats egAAEnv)
              { fetched_at_epoch_seconds := some 0, status_code := some 200, models := [] }).max_candidates) := by
  refine ⟨?_, ?_, ?_⟩ <;> with_unfolding_all decide

/-- C6 (amended): for every call of `get_match_model_mapping` whose effective
`max_candidates` is non-negative (a missing or zero option falls back to the
default 5; a negative value slices from the end of the list and can exceed the
bound), every mapping entry keeps only candidates with strictly positive
score, sorted by score descending with ties broken by model id ascending, of
length at most the reported `max_candidates`, and whenever the candidates
list is non-empty the best match is its first element. -/
theorem C6_mapping_invariants (options : Option MatchMappingOptions)
    (aaP : AAPayload) (mdP : MDPayload)
    (hn : 0 ≤ effective_max_candidates options) :
    ∀ m ∈ (get_match_model_mapping options aaP mdP).models,
      (∀ c ∈ m.candidates, 0 < c.score)
      ∧ List.Pairwise candRel m.candidates
      ∧ (m.candidates.length : Int)
          ≤ (get_match_model_mapping options aaP mdP).max_candidates
      ∧ (∀ c cs, m.candidates = c :: cs → m.best_match = some c) := by
  intro m hm
  have hm2 : m ∈ (apply_maxmin_half_void (aaP.models.map fun aa_model =>
      { artificial_analysis_slug := aa_model.model.slug.getD ""
        artificial_analysis_name := aa_model.model.name
        artificial_analysis_release_date := aa_model.model.release_date
        best_match := (pySliceTo (effective_max_candidates options)
          (collect_candidates_for_aa_model aa_model
            (scope_to_openrouter_models mdP.models))).head?
        candidates := pySliceTo (effective_max_candidates options)
          (collect_candidates_for_aa_model aa_model
            (scope_to_openrouter_models mdP.models)) : MatchMappedModel })).2 := hm
  rcases apply_void_elems hm2 with ⟨r, hr, hcase⟩
  rw [List.mem_map] at hr
  obtain ⟨aa_model, _, rfl⟩ := hr
  rcases hcase with rfl | rfl
  · refine ⟨?_, ?_, ?_, ?_⟩
    · intro c hc
      have hc2 : c ∈ List.take (effective_max_candidates options).toNat
          (collect_candidates_for_aa_model aa_model
            (scope_to_openrouter_models mdP.models)) := by
        rw [← pySliceTo_nonneg hn]
        exact hc
      exact collect_candidates_pos (List.mem_of_mem_take hc2)
    · show List.Pairwise candRel (pySliceTo _ _)
      rw [pySliceTo_nonneg hn]
      exact List.Pairwise.sublist (List.take_sublist _ _)
        (collect_candidates_sorted aa_model (scope_to_openrouter_models mdP.models))
    · exact pySliceTo_length_le hn _
    · intro c cs hcc
      have hcc2 : pySliceTo (effective_max_candidates options)
          (collect_candidates_for_aa_model aa_model
            (scope_to_openrouter_models mdP.models)) = c :: cs := hcc
      show (pySliceTo (effective_max_candidates options)
        (collect_candidates_for_aa_model aa_model
          (scope_to_openrouter_models mdP.models))).head? = some c
      rw [hcc2]
      rfl
  · exact ⟨fun c hc => absurd hc (List.not_mem_nil c), List.Pairwise.nil,
      by simpa using hn, fun c cs hcc => absurd hcc (by simp)⟩

/-- Witness for the amended C6 on the end-to-end example with the default
options: the single entry has the one gpt-5-mini candidate. -/
theorem C6_mapping_invariants_witness :
    (0 : Int) ≤ effective_max_candidates none
    ∧ ((get_match_model_mapping none (get_artificial_analysis_stats egAAEnv)
          (get_models_dev_stats egMDEnv)).models.getD 0 default)
        ∈ (get_match_model_mapping none (get_artificial_analysis_stats egAAEnv)
          (get_models_dev_stats egMDEnv)).models
    ∧ ((∀ c ∈ ((get_match_model_mapping none (get_artificial_analysis_stats egAAEnv)
            (get_models_dev_stats egMDEnv)).models.getD 0 default).candidates, 0 < c.score)
      ∧ List.Pairwise candRel
          ((get_match_model_mapping none (get_artificial_analysis_stats egAAEnv)
            (get_models_dev_stats egMDEnv)).models.getD 0 default).candidates
      ∧ ((((get_match_model_mapping none (get_artificial_analysis_stats egAAEnv)
            (get_models_dev_stats egMDEnv)).models.getD 0 default).candidates.length : Int)
          ≤ (get_match_model_mapping none (get_artificial_analysis_stats egAAEnv)
              (get_models_dev_stats egMDEnv)).max_candidates)
      ∧ (∀ c cs, ((get_match_model_mapping none (get_artificial_analysis_stats egAAEnv)
            (get_models_dev_stats egMDEnv)).models.getD 0 default).candidates = c :: cs →
          ((get_match_model_mapping none (get_artificial_analysis_stats egAAEnv)
            (get_models_dev_stats egMDEnv)).models.getD 0 default).best_match = some c)) :=
  ⟨by decide,
   by with_unfolding_all decide,
   C6_mapping_invariants none (get_artificial_analysis_stats egAAEnv)
     (get_models_dev_stats egMDEnv) (by decide) _ (by with_unfolding_all decide)⟩

end LLMHarness
